import Mathlib

set_option autoImplicit false

/-!
Verification development for the `tcx` library: a streaming reader that turns a
Training Center XML (TCX) event stream into a typed `TrainingCenterDatabase`
tree (source files `src/lib.rs`, `src/read.rs`, `src/types.rs`).

The underlying XML tokenizer (quick-xml) is external to the repository; per the
specification it is modelled at its interface: a pull-based finite sequence of
events.  A `read_event` call is modelled as taking the head of a `List Tok`;
an exhausted list corresponds to the tokenizer reporting end of input
(`Event::Eof`) on every further call, and a `Tok.err` element corresponds to
`read_event` returning a malformed-markup error at that point.  quick-xml
enters a terminal state after returning an error — every later `read_event`
call reports `Eof` — so an error is always the last thing a run of the
tokenizer can deliver; the model renders this by having the one place that
reads past an error (the leaf macros' discarded `if let`) continue on the
exhausted stream, making any elements following a `Tok.err` unreachable.
Text and
attribute values are carried already unescaped/decoded (the decoding step of
quick-xml is total on the streams considered here, and no claim concerns it).

Every reader loop in `read.rs` has the exact same shape: loop over
`read_event`, dispatch on `Start` names, break on an `End` event carrying one
fixed closing name, return the tokenizer error from the `Err` arm, ignore all
other events.  That shape is captured once by `elem_loop`, driven by a fuel
parameter (the Rust loops contain no bound of their own; `none` means the loop
did not finish within the given fuel, and `∀ fuel, … = none` means it never
finishes).  Each Rust reader is `elem_loop` applied to its own dispatch
function, translated arm by arm from the source.

Floating-point values (`f64`) are modelled opaquely by their accepted source
text: no claim depends on float arithmetic, only on whether `f64::from_str`
accepts or rejects a string, which is what `parseF64` implements (Rust's float
grammar: optional sign, then `inf`/`infinity`/`nan` case-insensitively or a
decimal mantissa with optional fraction and exponent).
-/

/-- One element of the tokenizer's event sequence.  `startTag`/`endTag`/`text`
are `Event::Start`/`Event::End`/`Event::Text`; `err` is `read_event`
returning `Err(_)` at that point (after which the tokenizer reports only
`Eof`, so on a realizable stream an `err` is final); `other` stands for any
event kind the readers never inspect (`Empty`, `Comment`, `CData`, `Decl`,
`PI`, `DocType`).  End of the list is `Event::Eof`, reported again on every
later call. -/
inductive Tok where
  | startTag (name : String) (attrs : List (String × String))
  | endTag (name : String)
  | text (s : String)
  | err (e : String)
  | other
deriving DecidableEq

/-- Error kinds of Rust's `ParseIntError`, as produced by unsigned
`from_str`. -/
inductive IntErr where
  | empty
  | invalidDigit
  | posOverflow
deriving DecidableEq

/-- Error kinds of Rust's `ParseFloatError`. -/
inductive FloatErr where
  | empty
  | invalid
deriving DecidableEq

/-- `types.rs` `UnknownEnumValueError`: one variant per closed enumeration,
carrying the offending text. -/
inductive UnknownEnumValueError where
  | trainingType (s : String)
  | sport (s : String)
  | buildType (s : String)
  | intensity (s : String)
  | triggerMethod (s : String)
  | sensorState (s : String)
  | cadenceSensorType (s : String)
deriving DecidableEq

/-- `read.rs` `ReadError`.  Payloads that the claims never inspect
(`quick_xml::Error` details, `chrono::ParseError` details) are simplified to a
string or dropped; the variant structure is the source's. -/
inductive ReadError where
  | xmlReadError (e : String)
  | parseIntError (e : IntErr)
  | parseFloatError (e : FloatErr)
  | parseBoolError
  | typeNotDefined
  | unknownEnumValue (e : UnknownEnumValueError)
  | parseDateError
deriving DecidableEq

/-! ## Scalar conversion layer -/

/-- Rust `uN::from_str` for an unsigned type with maximum value `maxVal`:
an optional leading `+` (a `-` is not treated as a sign for unsigned types and
fails the digit check), then one or more ASCII digits, value within range. -/
def parseUnsigned (maxVal : Nat) (s : String) : Except IntErr Nat :=
  match s.toList with
  | [] => .error .empty
  | c :: rest =>
    let digits := if c = '+' then rest else c :: rest
    if digits = [] then .error .invalidDigit
    else if digits.all Char.isDigit then
      let v := digits.foldl (fun a d => a * 10 + (d.toNat - 48)) 0
      if v ≤ maxVal then .ok v else .error .posOverflow
    else .error .invalidDigit

def parseU8 (s : String) : Except IntErr Nat := parseUnsigned 255 s

def parseU16 (s : String) : Except IntErr Nat := parseUnsigned 65535 s

def parseU32 (s : String) : Except IntErr Nat := parseUnsigned 4294967295 s

/-- Rust `bool::from_str`: exactly `true` or `false`. -/
def parseBool (s : String) : Except Unit Bool :=
  if s = "true" then .ok true
  else if s = "false" then .ok false
  else .error ()

/-- An `f64` value, modelled by its accepted source text (see the module
comment); `0.0` defaults are `F64.zero`. -/
structure F64 where
  repr : String
deriving DecidableEq

def F64.zero : F64 := ⟨"0"⟩

/-- Exponent part of Rust's float grammar: optional sign then one or more
digits. -/
def expDigitsOk (rest : List Char) : Bool :=
  let rest' := match rest with
    | c :: t => if c = '+' ∨ c = '-' then t else c :: t
    | [] => []
  decide (rest' ≠ []) && rest'.all Char.isDigit

/-- `('e'|'E') exponent` or nothing. -/
def expPartOk : List Char → Bool
  | [] => true
  | e :: rest => (e = 'e' || e = 'E') && expDigitsOk rest

/-- Decimal mantissa with optional fraction and exponent; at least one digit
must be present in the mantissa. -/
def mantissaExpOk (cs : List Char) : Bool :=
  let intPart := cs.takeWhile Char.isDigit
  let r1 := cs.dropWhile Char.isDigit
  match r1 with
  | '.' :: t =>
    let frac := t.takeWhile Char.isDigit
    let r2 := t.dropWhile Char.isDigit
    (decide (intPart ≠ []) || decide (frac ≠ [])) && expPartOk r2
  | r => decide (intPart ≠ []) && expPartOk r

/-- Body of Rust's float grammar after the optional sign. -/
def f64BodyOk (cs : List Char) : Bool :=
  let ls := cs.map Char.toLower
  ls = ['i', 'n', 'f'] || ls = "infinity".toList || ls = ['n', 'a', 'n']
    || mantissaExpOk cs

/-- Rust `f64::from_str`, decided at the level of its accepted grammar. -/
def parseF64 (s : String) : Except FloatErr F64 :=
  match s.toList with
  | [] => .error .empty
  | c :: rest =>
    let body := if c = '+' ∨ c = '-' then rest else c :: rest
    if f64BodyOk body then .ok ⟨s⟩ else .error .invalid

/-! ## Timestamps (`chrono::DateTime::parse_from_rfc3339`) -/

/-- A `chrono::DateTime<FixedOffset>` as far as the claims observe it: the
parsed calendar/clock fields plus the encoded offset in seconds (chrono keeps
the parsed offset rather than normalising to UTC). -/
structure DateTimeFixedOffset where
  year : Nat
  month : Nat
  day : Nat
  hour : Nat
  minute : Nat
  second : Nat
  nanosecond : Nat
  offset_sec : Int
deriving DecidableEq

/-- `FixedOffset::east(10800).ymd(1987, 08, 21).and_hms(14, 0, 0)`, the
placeholder timestamp used by `Activity::default`, `ActivityLap::default` and
`TrackPoint::default` in `types.rs`. -/
def defaultDateTime : DateTimeFixedOffset :=
  ⟨1987, 8, 21, 14, 0, 0, 0, 10800⟩

def digitVal (c : Char) : Option Nat :=
  if c.isDigit then some (c.toNat - 48) else none

def twoDigits (a b : Char) : Option Nat := do
  pure ((← digitVal a) * 10 + (← digitVal b))

def isLeapYear (y : Nat) : Bool :=
  y % 4 = 0 && (y % 100 ≠ 0 || y % 400 = 0)

def daysInMonth (y m : Nat) : Nat :=
  if m = 2 then (if isLeapYear y then 29 else 28)
  else if m = 4 ∨ m = 6 ∨ m = 9 ∨ m = 11 then 30
  else 31

/-- RFC3339 numeric offset or `Z`/`z`. -/
def parseOffset : List Char → Option Int
  | ['Z'] => some 0
  | ['z'] => some 0
  | [sgn, h1, h2, ':', m1, m2] =>
    if sgn = '+' ∨ sgn = '-' then do
      let h ← twoDigits h1 h2
      let m ← twoDigits m1 m2
      if h ≤ 23 ∧ m ≤ 59 then
        let total : Int := (h * 3600 + m * 60 : Nat)
        some (if sgn = '-' then -total else total)
      else none
    else none
  | _ => none

/-- Fractional nanoseconds from the digits after the decimal point (chrono
keeps at most nine digits of precision, accepting but truncating further
digits). -/
def nanosOf (ds : List Char) : Nat :=
  let d9 := (ds.take 9).foldl (fun a c => a * 10 + (c.toNat - 48)) 0
  d9 * 10 ^ (9 - min 9 ds.length)

/-- Optional `.digits`, then the mandatory offset. -/
def parseFracOffset (cs : List Char) : Option (Nat × Int) :=
  match cs with
  | '.' :: rest =>
    let ds := rest.takeWhile Char.isDigit
    let tail := rest.dropWhile Char.isDigit
    if ds = [] then none
    else do
      let off ← parseOffset tail
      some (nanosOf ds, off)
  | _ => do
    let off ← parseOffset cs
    some (0, off)

/-- `chrono::DateTime::parse_from_rfc3339`: strict RFC3339
(`YYYY-MM-DDTHH:MM:SS[.fff…](Z|±HH:MM)`, `T` case-insensitive, calendar-valid
date, second `60` admitted for leap seconds). -/
def parseRfc3339 (s : String) : Except Unit DateTimeFixedOffset :=
  match s.toList with
  | y1 :: y2 :: y3 :: y4 :: '-' :: mo1 :: mo2 :: '-' :: d1 :: d2 ::
      t :: h1 :: h2 :: ':' :: mi1 :: mi2 :: ':' :: s1 :: s2 :: rest =>
    let r : Option DateTimeFixedOffset := do
      if t = 'T' ∨ t = 't' then pure () else none
      let yh ← twoDigits y1 y2
      let yl ← twoDigits y3 y4
      let y := yh * 100 + yl
      let mo ← twoDigits mo1 mo2
      let d ← twoDigits d1 d2
      let h ← twoDigits h1 h2
      let mi ← twoDigits mi1 mi2
      let sec ← twoDigits s1 s2
      if 1 ≤ mo ∧ mo ≤ 12 ∧ 1 ≤ d ∧ d ≤ daysInMonth y mo
          ∧ h ≤ 23 ∧ mi ≤ 59 ∧ sec ≤ 60 then
        let (ns, off) ← parseFracOffset rest
        some ⟨y, mo, d, h, mi, sec, ns, off⟩
      else none
    match r with
    | some dt => .ok dt
    | none => .error ()
  | _ => .error ()

/-! ## Closed enumerations (`types.rs`, `FromStr` impls) -/

inductive BuildType where
  | internal
  | alpha
  | beta
  | release
deriving DecidableEq

def BuildType.from_str (s : String) : Except UnknownEnumValueError BuildType :=
  if s = "Internal" then .ok .internal
  else if s = "Alpha" then .ok .alpha
  else if s = "Beta" then .ok .beta
  else if s = "Release" then .ok .release
  else .error (.buildType s)

inductive TrainingType where
  | workout
  | course
deriving DecidableEq

def TrainingType.default : TrainingType := .workout

def TrainingType.from_str (s : String) : Except UnknownEnumValueError TrainingType :=
  if s = "Workout" then .ok .workout
  else if s = "Course" then .ok .course
  else .error (.trainingType s)

inductive SensorState where
  | present
  | absent
deriving DecidableEq

def SensorState.from_str (s : String) : Except UnknownEnumValueError SensorState :=
  if s = "Present" then .ok .present
  else if s = "Absent" then .ok .absent
  else .error (.sensorState s)

inductive Intensity where
  | active
  | resting
deriving DecidableEq

def Intensity.from_str (s : String) : Except UnknownEnumValueError Intensity :=
  if s = "Active" then .ok .active
  else if s = "Resting" then .ok .resting
  else .error (.intensity s)

inductive TriggerMethod where
  | manual
  | distance
  | location
  | time
  | heartRate
deriving DecidableEq

def TriggerMethod.from_str (s : String) : Except UnknownEnumValueError TriggerMethod :=
  if s = "Manual" then .ok .manual
  else if s = "Distance" then .ok .distance
  else if s = "Location" then .ok .location
  else if s = "Time" then .ok .time
  else if s = "HeartRate" then .ok .heartRate
  else .error (.triggerMethod s)

inductive Sport where
  | running
  | biking
  | other
deriving DecidableEq

def Sport.from_str (s : String) : Except UnknownEnumValueError Sport :=
  if s = "Running" then .ok .running
  else if s = "Biking" then .ok .biking
  else if s = "Other" then .ok .other
  else .error (.sport s)

inductive CadenceSensorType where
  | footpod
  | bike
deriving DecidableEq

def CadenceSensorType.from_str (s : String) : Except UnknownEnumValueError CadenceSensorType :=
  if s = "Footpod" then .ok .footpod
  else if s = "Bike" then .ok .bike
  else .error (.cadenceSensorType s)

/-! ## Domain model (`types.rs`)

Translated structure by structure.  Unsigned integer fields (`u8`/`u16`/`u32`)
become `Nat`; the parsers above reject out-of-range values, so no wrap-around
can occur.  `Date<Utc>` fields (never populated by any reader) are modelled by
their calendar fields. -/

structure Version where
  version_major : Nat
  version_minor : Nat
  build_major : Option Nat
  build_minor : Option Nat
deriving DecidableEq

def Version.default : Version := ⟨0, 0, none, none⟩

structure Build where
  version : Version
  build_type : Option BuildType
  time : Option String
  builder : Option String
deriving DecidableEq

def Build.default : Build := ⟨Version.default, none, none, none⟩

structure Application where
  name : String
  build : Build
  lang_id : String
  part_number : String
deriving DecidableEq

def Application.default : Application := ⟨"", Build.default, "", ""⟩

structure Device where
  name : String
  unit_id : Nat
  product_id : Nat
  version : Version
deriving DecidableEq

def Device.default : Device := ⟨"", 0, 0, Version.default⟩

/-- `types.rs` `SourceType`: the polymorphic `Author`/`Creator` payload. -/
inductive SourceType where
  | application (a : Application)
  | device (d : Device)
deriving DecidableEq

structure Position where
  latitude_degrees : F64
  longitude_degrees : F64
deriving DecidableEq

def Position.default : Position := ⟨F64.zero, F64.zero⟩

structure ActivityTrackPointExtension where
  speed : Option F64
  run_cadence : Option Nat
  watts : Option Nat
  cadence_sensor : Option CadenceSensorType
deriving DecidableEq

structure TrackPoint where
  time : DateTimeFixedOffset
  position : Option Position
  altitude_meters : Option F64
  distance_meters : Option F64
  heart_rate_bpm : Option Nat
  cadence : Option Nat
  sensor_state : Option SensorState
  extension : Option ActivityTrackPointExtension
deriving DecidableEq

def TrackPoint.default : TrackPoint :=
  ⟨defaultDateTime, none, none, none, none, none, none, none⟩

structure ActivityLapExtension where
  avg_speed : Option F64
  max_bike_cadence : Option Nat
  avg_run_cadence : Option Nat
  max_run_cadence : Option Nat
  steps : Option Nat
  avg_watts : Option Nat
  max_watts : Option Nat
deriving DecidableEq

structure ActivityLap where
  total_time_seconds : F64
  distance_meters : F64
  maximum_speed : Option F64
  calories : Nat
  average_heart_rate_bpm : Option Nat
  maximum_heart_rate_bpm : Option Nat
  intensity : Intensity
  cadence : Option Nat
  trigger_method : TriggerMethod
  track_points : List TrackPoint
  notes : Option String
  start_time : DateTimeFixedOffset
  extension : Option ActivityLapExtension
deriving DecidableEq

def ActivityLap.default : ActivityLap :=
  ⟨F64.zero, F64.zero, none, 0, none, none, .active, none, .manual, [],
    none, defaultDateTime, none⟩

structure QuickWorkout where
  total_time_seconds : F64
  distance_meters : F64
deriving DecidableEq

def QuickWorkout.default : QuickWorkout := ⟨F64.zero, F64.zero⟩

structure Plan where
  name : Option String
  training_type : TrainingType
  interval_workout : Bool
deriving DecidableEq

def Plan.default : Plan := ⟨none, TrainingType.default, false⟩

structure Training where
  quick_workout_results : Option QuickWorkout
  plan : Option Plan
  virtual_partner : Bool
deriving DecidableEq

def Training.default : Training := ⟨none, none, false⟩

structure Activity where
  id : DateTimeFixedOffset
  laps : List ActivityLap
  notes : Option String
  training : Option Training
  creator : Option SourceType
  sport : Sport
deriving DecidableEq

def Activity.default : Activity :=
  ⟨defaultDateTime, [], none, none, none, .running⟩

/-- `Date<Utc>` (calendar date) used by the never-populated workout/history
types. -/
structure DateUtc where
  year : Nat
  month : Nat
  day : Nat
deriving DecidableEq

structure MultiActivity where
  transition : Option ActivityLap
  activity : Option Activity
deriving DecidableEq

structure MultiSportSession where
  id : Option DateTimeFixedOffset
  sports : Option (List MultiActivity)
  notes : Option String
deriving DecidableEq

structure ActivityList where
  activities : List Activity
  multi_sport_sessions : List MultiSportSession
deriving DecidableEq

def ActivityList.default : ActivityList := ⟨[], []⟩

inductive CoursePointType where
  | generic | summit | valley | water | food | danger | left | right
  | straight | firstAid | category4 | category3 | category2 | category1
  | horsCategory | sprint
deriving DecidableEq

structure CoursePoint where
  name : Option String
  time : Option DateTimeFixedOffset
  position : Option Position
  altitude_meters : Option F64
  point_type : Option CoursePointType
  notes : Option String
deriving DecidableEq

structure CourseLap where
  total_time_seconds : Option F64
  distance_meters : Option F64
  begin_position : Option Position
  begin_altitude_meters : Option F64
  end_position : Option Position
  end_altitude_meters : Option F64
  average_heart_rate_bpm : Option Nat
  maximum_heart_rate_bpm : Option Nat
  intensity : Option Intensity
  cadence : Option Nat
deriving DecidableEq

structure Course where
  name : Option String
  laps : Option (List CourseLap)
  track_points : Option (List TrackPoint)
  notes : Option String
  course_point : Option CoursePoint
  creator : Option SourceType
deriving DecidableEq

structure CourseList where
  cources : Option (List Course)
deriving DecidableEq

structure Cadence where
  low : Option F64
  high : Option F64
deriving DecidableEq

structure CustomHeartRateZone where
  low : Option Nat
  high : Option Nat
deriving DecidableEq

inductive SpeedType where
  | pace
  | speed
deriving DecidableEq

structure CustomSpeedZone where
  view_as : Option SpeedType
  low_in_meters_per_second : Option F64
  high_in_meters_per_second : Option F64
deriving DecidableEq

inductive Zone where
  | predefinedSpeedZone (z : Nat)
  | customSpeedZone (z : CustomSpeedZone)
  | predefinedHeartRateZone (z : Nat)
  | customHeartRateZone (z : CustomHeartRateZone)
deriving DecidableEq

inductive Target where
  | speed (z : Zone)
  | heartRate (z : Zone)
  | cadence (c : Cadence)
  | none
deriving DecidableEq

inductive Duration where
  | time (t : Nat)
  | distance (d : Nat)
  | heartRateAbove (h : Nat)
  | heartRateBelow (h : Nat)
  | caloriesBurned (c : Nat)
deriving DecidableEq

mutual
inductive StepType where
  | step (s : Step)
  | repeatStep (r : RepeatT)

inductive Step where
  | mk (step_id : Option Nat) (name : Option String) (duration : Option Duration)
      (intensity : Option Intensity) (target : Option Target)

/-- `types.rs` `Repeat`; renamed to avoid the Lean tactic keyword. -/
inductive RepeatT where
  | mk (step_id : Option Nat) (repetitions : Option Nat)
      (children : Option (List StepType))
end

structure Workout where
  name : Option String
  steps : Option (List StepType)
  scheduled_on : Option DateUtc
  notes : Option String
  creator : Option SourceType
  sport : Option Sport

structure WorkoutList where
  workouts : Option (List Workout)

structure Week where
  notes : Option String
  start_day : Option DateUtc
deriving DecidableEq

/-- `types.rs` `HistoryFolder` (recursive through its `folders` field, so an
inductive rather than a Lean structure). -/
inductive HistoryFolder where
  | mk (folders : Option (List HistoryFolder))
      (activity_refs : Option (List DateTimeFixedOffset))
      (weeks : Option (List Week)) (notes : Option String)
      (name : Option String)

/-- `types.rs` `MultiSportFolder` (recursive). -/
inductive MultiSportFolder where
  | mk (folders : Option (List MultiSportFolder))
      (multisport_activity_refs : Option (List DateTimeFixedOffset))
      (weeks : Option (List Week)) (notes : Option String)
      (name : Option String)

structure History where
  running : Option HistoryFolder
  biking : Option HistoryFolder
  other : Option HistoryFolder
  multi_sport : Option MultiSportFolder

/-- `types.rs` `WorkoutFolder` (recursive). -/
inductive WorkoutFolder where
  | mk (folders : Option (List WorkoutFolder))
      (workout_name_refs : Option (List String)) (name : Option String)

structure Workouts where
  running : Option WorkoutFolder
  biking : Option WorkoutFolder
  other : Option WorkoutFolder

/-- `types.rs` `CourseFolder` (recursive). -/
inductive CourseFolder where
  | mk (folders : Option (List CourseFolder))
      (course_name_refs : Option (List String)) (notes : Option String)
      (name : Option String)

structure Courses where
  course_folder : Option CourseFolder

structure Folders where
  history : Option History
  workouts : Option Workouts
  courses : Option Courses

structure TrainingCenterDatabase where
  folders : Option Folders
  activity_list : Option ActivityList
  workout_list : Option WorkoutList
  course_list : Option CourseList
  author : Option SourceType

/-! ## Element readers (`read.rs`)

`RdResult α` is the outcome of running a reader against the remaining event
stream: `none` = the given fuel ran out before the reader returned (the Rust
loop is still running), `some (.error e)` = the reader returned `Err(e)`,
`some (.ok (v, rest))` = the reader returned `Ok(v)` leaving `rest` of the
stream unconsumed. -/

abbrev RdResult (α : Type) : Type := Option (Except ReadError (α × List Tok))

/-- Sequencing of a child-reader call inside a dispatch arm: `?`-style error
propagation, fuel exhaustion propagation, then continue with the child's
result and the unconsumed stream. -/
def and_then {α σ : Type} (x : RdResult α) (f : α → List Tok → RdResult σ) :
    RdResult σ :=
  match x with
  | none => none
  | some (.error e) => some (.error e)
  | some (.ok (a, r)) => f a r

/-- One `read_event` performed by the leaf macros (`must_read_text_as!`,
`opt_read_text_as!`, `must_read_text!`, `opt_read_text!`,
`must_read_text_as_date!`, `opt_read_text_as_date!`): the next event is
consumed whatever it is; only if it is a `Text` event is its content parsed
(`.error` on parse failure, matching the macros' `?`); any other outcome
leaves the field untouched (`none`).  In particular a tokenizer error fails
the macros' `if let Ok(Event::Text(…))` pattern and is silently discarded —
and since quick-xml enters a terminal state after returning any error
(every later `read_event` call reports `Eof`), the stream left behind in
that case is the exhausted one. -/
def read_text_event {α : Type} (parse : String → Except ReadError α) :
    List Tok → Except ReadError (Option α × List Tok)
  | [] => .ok (none, [])
  | .text s :: r =>
    match parse s with
    | .ok v => .ok (some v, r)
    | .error e => .error e
  | .err _ :: _ => .ok (none, [])
  | _ :: r => .ok (none, r)

/-- A leaf macro invocation as used inside a dispatch arm: read one event via
`read_text_event`; on a parsed value `w` the field is assigned (`set w`), on
no value the entity is kept unchanged (`keep`). -/
def read_leaf {α σ : Type} (parse : String → Except ReadError α)
    (set : α → σ) (keep : σ) (r : List Tok) : RdResult σ :=
  match read_text_event parse r with
  | .error e => some (.error e)
  | .ok (some w, r') => some (.ok (set w, r'))
  | .ok (none, r') => some (.ok (keep, r'))

/-- The common shape of every reader loop in `read.rs`:

```text
loop {
    match reader.read_event(&mut buf) {
        Ok(Event::Start(ref e)) => /* dispatch on e.name() */,
        Ok(Event::End(ref e))   => if e.name() == close { break; },
        Err(e) => return Err(ReadError::XmlReadError(e)),
        _ => (),
    }
}
```

The `_ => ()` arm also matches `Event::Eof`, so an exhausted stream (`[]`)
makes the Rust loop spin forever; here that re-runs the loop on `[]` until the
fuel is gone. -/
def elem_loop {σ : Type} (close : String)
    (dispatch : Nat → σ → String → List (String × String) → List Tok → RdResult σ) :
    Nat → σ → List Tok → RdResult σ
  | 0, _, _ => none
  | n + 1, st, [] => elem_loop close dispatch n st []
  | n + 1, st, .startTag name attrs :: r =>
    and_then (dispatch n st name attrs r) (fun st' r' => elem_loop close dispatch n st' r')
  | n + 1, st, .endTag name :: r =>
    if name = close then some (.ok (st, r)) else elem_loop close dispatch n st r
  | n + 1, st, .text _ :: r => elem_loop close dispatch n st r
  | _ + 1, _, .err e :: _ => some (.error (.xmlReadError e))
  | n + 1, st, .other :: r => elem_loop close dispatch n st r

/-- `read.rs` `read_type`: find the first well-formed `xsi:type` attribute;
`TypeNotDefined` if there is none, else its decoded value. -/
def read_type (attrs : List (String × String)) : Except ReadError String :=
  match attrs.find? (fun a => a.1 = "xsi:type") with
  | none => .error .typeNotDefined
  | some a => .ok a.2

/-! Parsers wrapped into `ReadError`, as the macros' `?` conversions do. -/

def pString (s : String) : Except ReadError String := .ok s

def pU8 (s : String) : Except ReadError Nat :=
  match parseU8 s with
  | .ok v => .ok v
  | .error e => .error (.parseIntError e)

def pU16 (s : String) : Except ReadError Nat :=
  match parseU16 s with
  | .ok v => .ok v
  | .error e => .error (.parseIntError e)

def pU32 (s : String) : Except ReadError Nat :=
  match parseU32 s with
  | .ok v => .ok v
  | .error e => .error (.parseIntError e)

def pF64 (s : String) : Except ReadError F64 :=
  match parseF64 s with
  | .ok v => .ok v
  | .error e => .error (.parseFloatError e)

def pDate (s : String) : Except ReadError DateTimeFixedOffset :=
  match parseRfc3339 s with
  | .ok v => .ok v
  | .error _ => .error .parseDateError

def pSport (s : String) : Except ReadError Sport :=
  match Sport.from_str s with
  | .ok v => .ok v
  | .error e => .error (.unknownEnumValue e)

def pIntensity (s : String) : Except ReadError Intensity :=
  match Intensity.from_str s with
  | .ok v => .ok v
  | .error e => .error (.unknownEnumValue e)

def pTriggerMethod (s : String) : Except ReadError TriggerMethod :=
  match TriggerMethod.from_str s with
  | .ok v => .ok v
  | .error e => .error (.unknownEnumValue e)

def pSensorState (s : String) : Except ReadError SensorState :=
  match SensorState.from_str s with
  | .ok v => .ok v
  | .error e => .error (.unknownEnumValue e)

def pBuildType (s : String) : Except ReadError BuildType :=
  match BuildType.from_str s with
  | .ok v => .ok v
  | .error e => .error (.unknownEnumValue e)

/-! ### `Value` wrapper loops (`must_read_value_as!` / `opt_read_value_as!`)

The macros loop until an `End` event named `Value` is seen; a `Start` event
named `Value` triggers the corresponding leaf macro on the following event.
The loop state is the field being populated. -/

def must_value_dispatch {α : Type} (parse : String → Except ReadError α)
    (_n : Nat) (st : α) (name : String) (_attrs : List (String × String))
    (r : List Tok) : RdResult α :=
    if name = "Value" then
      read_leaf parse (fun w => w) st r
    else some (.ok (st, r))

/-- `must_read_value_as!` (declared in `read.rs`; no reader currently invokes
it). -/
def must_read_value_as {α : Type} (parse : String → Except ReadError α)
    (fuel : Nat) (st : α) (evs : List Tok) : RdResult α :=
  elem_loop "Value" (must_value_dispatch parse) fuel st evs

def opt_value_dispatch {α : Type} (parse : String → Except ReadError α)
    (_n : Nat) (st : Option α) (name : String) (_attrs : List (String × String))
    (r : List Tok) : RdResult (Option α) :=
    if name = "Value" then
      read_leaf parse (fun w => some w) st r
    else some (.ok (st, r))

/-- `opt_read_value_as!`, used for the heart-rate fields. -/
def opt_read_value_as {α : Type} (parse : String → Except ReadError α)
    (fuel : Nat) (st : Option α) (evs : List Tok) : RdResult (Option α) :=
  elem_loop "Value" (opt_value_dispatch parse) fuel st evs

/-! ### Per-entity readers, leaves first (their call graph is acyclic) -/

def version_dispatch (_n : Nat) (v : Version) (name : String)
    (_attrs : List (String × String)) (r : List Tok) : RdResult Version :=
    if name = "VersionMajor" then
      read_leaf pU16 (fun w => { v with version_major := w }) v r
    else if name = "VersionMinor" then
      read_leaf pU16 (fun w => { v with version_minor := w }) v r
    else if name = "BuildMajor" then
      read_leaf pU16 (fun w => { v with build_major := some w }) v r
    else if name = "BuildMinor" then
      read_leaf pU16 (fun w => { v with build_minor := some w }) v r
    else some (.ok (v, r))

/-- `read.rs` `read_version` (closing tag hard-coded to `Version`). -/
def read_version (fuel : Nat) (evs : List Tok) : RdResult Version :=
  elem_loop "Version" version_dispatch fuel Version.default evs

def build_dispatch (n : Nat) (b : Build) (name : String)
    (_attrs : List (String × String)) (r : List Tok) : RdResult Build :=
    if name = "Version" then
      and_then (read_version n r) (fun ver r' => some (.ok ({ b with version := ver }, r')))
    else if name = "Time" then
      read_leaf pString (fun w => { b with time := some w }) b r
    else if name = "Build" then
      read_leaf pString (fun w => { b with builder := some w }) b r
    else if name = "Type" then
      read_leaf pBuildType (fun w => { b with build_type := some w }) b r
    else some (.ok (b, r))

/-- `read.rs` `read_build` (closing tag hard-coded to `Build`). -/
def read_build (fuel : Nat) (evs : List Tok) : RdResult Build :=
  elem_loop "Build" build_dispatch fuel Build.default evs

def application_dispatch (n : Nat) (a : Application) (name : String)
    (_attrs : List (String × String)) (r : List Tok) : RdResult Application :=
    if name = "Name" then
      read_leaf pString (fun w => { a with name := w }) a r
    else if name = "Build" then
      and_then (read_build n r) (fun b r' => some (.ok ({ a with build := b }, r')))
    else if name = "LangID" then
      read_leaf pString (fun w => { a with lang_id := w }) a r
    else if name = "PartNumber" then
      read_leaf pString (fun w => { a with part_number := w }) a r
    else some (.ok (a, r))

/-- `read.rs` `read_application`. -/
def read_application (close : String) (fuel : Nat) (evs : List Tok) :
    RdResult Application :=
  elem_loop close application_dispatch fuel Application.default evs

def device_dispatch (n : Nat) (d : Device) (name : String)
    (_attrs : List (String × String)) (r : List Tok) : RdResult Device :=
    if name = "Name" then
      read_leaf pString (fun w => { d with name := w }) d r
    else if name = "UnitId" then
      read_leaf pU32 (fun w => { d with unit_id := w }) d r
    else if name = "ProductID" then
      read_leaf pU16 (fun w => { d with product_id := w }) d r
    else if name = "Version" then
      and_then (read_version n r) (fun ver r' => some (.ok ({ d with version := ver }, r')))
    else some (.ok (d, r))

/-- `read.rs` `read_device`. -/
def read_device (close : String) (fuel : Nat) (evs : List Tok) : RdResult Device :=
  elem_loop close device_dispatch fuel Device.default evs

def position_dispatch (_n : Nat) (p : Position) (name : String)
    (_attrs : List (String × String)) (r : List Tok) : RdResult Position :=
    if name = "LatitudeDegrees" then
      read_leaf pF64 (fun w => { p with latitude_degrees := w }) p r
    else if name = "LongitudeDegrees" then
      read_leaf pF64 (fun w => { p with longitude_degrees := w }) p r
    else some (.ok (p, r))

/-- `read.rs` `read_position`. -/
def read_position (close : String) (fuel : Nat) (evs : List Tok) : RdResult Position :=
  elem_loop close position_dispatch fuel Position.default evs

def track_point_dispatch (n : Nat) (tp : TrackPoint) (name : String)
    (_attrs : List (String × String)) (r : List Tok) : RdResult TrackPoint :=
    if name = "Time" then
      read_leaf pDate (fun w => { tp with time := w }) tp r
    else if name = "Position" then
      and_then (read_position "Position" n r)
        (fun p r' => some (.ok ({ tp with position := some p }, r')))
    else if name = "AltitudeMeters" then
      read_leaf pF64 (fun w => { tp with altitude_meters := some w }) tp r
    else if name = "DistanceMeters" then
      read_leaf pF64 (fun w => { tp with distance_meters := some w }) tp r
    else if name = "HeartRateBpm" then
      and_then (opt_read_value_as pU8 n tp.heart_rate_bpm r)
        (fun hv r' => some (.ok ({ tp with heart_rate_bpm := hv }, r')))
    else if name = "Cadence" then
      read_leaf pU8 (fun w => { tp with cadence := some w }) tp r
    else if name = "SensorState" then
      read_leaf pSensorState (fun w => { tp with sensor_state := some w }) tp r
    else some (.ok (tp, r))

/-- `read.rs` `read_track_point`. -/
def read_track_point (close : String) (fuel : Nat) (evs : List Tok) :
    RdResult TrackPoint :=
  elem_loop close track_point_dispatch fuel TrackPoint.default evs

def track_dispatch (n : Nat) (track : List TrackPoint) (name : String)
    (_attrs : List (String × String)) (r : List Tok) : RdResult (List TrackPoint) :=
    if name = "Trackpoint" then
      and_then (read_track_point "Trackpoint" n r)
        (fun tp r' => some (.ok (track ++ [tp], r')))
    else some (.ok (track, r))

/-- `read.rs` `read_track`. -/
def read_track (close : String) (fuel : Nat) (evs : List Tok) :
    RdResult (List TrackPoint) :=
  elem_loop close track_dispatch fuel [] evs

def quick_workout_dispatch (_n : Nat) (q : QuickWorkout) (name : String)
    (_attrs : List (String × String)) (r : List Tok) : RdResult QuickWorkout :=
    if name = "TotalTimeSeconds" then
      read_leaf pF64 (fun w => { q with total_time_seconds := w }) q r
    else if name = "DistanceMeters" then
      read_leaf pF64 (fun w => { q with distance_meters := w }) q r
    else some (.ok (q, r))

/-- `read.rs` `read_quick_workout`. -/
def read_quick_workout (close : String) (fuel : Nat) (evs : List Tok) :
    RdResult QuickWorkout :=
  elem_loop close quick_workout_dispatch fuel QuickWorkout.default evs

/-- Attribute pass at the top of `read.rs` `read_plan`: every well-formed
attribute is examined; `Type` and `IntervalWorkout` are parsed with `?`. -/
def plan_attrs (attrs : List (String × String)) : Except ReadError Plan :=
  attrs.foldlM (fun p kv =>
    if kv.1 = "Type" then
      match TrainingType.from_str kv.2 with
      | .ok t => .ok { p with training_type := t }
      | .error e => .error (.unknownEnumValue e)
    else if kv.1 = "IntervalWorkout" then
      match parseBool kv.2 with
      | .ok b => .ok { p with interval_workout := b }
      | .error _ => .error .parseBoolError
    else .ok p) Plan.default

def plan_dispatch (_n : Nat) (p : Plan) (name : String)
    (_attrs : List (String × String)) (r : List Tok) : RdResult Plan :=
    if name = "Name" then
      read_leaf pString (fun w => { p with name := some w }) p r
    else some (.ok (p, r))

/-- `read.rs` `read_plan` (attributes of the `Plan` start element first, then
the loop). -/
def read_plan (close : String) (attrs : List (String × String)) (fuel : Nat)
    (evs : List Tok) : RdResult Plan :=
  match plan_attrs attrs with
  | .error e => some (.error e)
  | .ok p => elem_loop close plan_dispatch fuel p evs

def training_dispatch (n : Nat) (t : Training) (name : String)
    (attrs : List (String × String)) (r : List Tok) : RdResult Training :=
    if name = "QuickWorkoutResults" then
      and_then (read_quick_workout "QuickWorkoutResults" n r)
        (fun q r' => some (.ok ({ t with quick_workout_results := some q }, r')))
    else if name = "Plan" then
      and_then (read_plan "Plan" attrs n r)
        (fun p r' => some (.ok ({ t with plan := some p }, r')))
    else some (.ok (t, r))

/-- `read.rs` `read_training`. -/
def read_training (close : String) (fuel : Nat) (evs : List Tok) :
    RdResult Training :=
  elem_loop close training_dispatch fuel Training.default evs

/-- Attribute pass at the top of `read.rs` `read_activity_lap`: the
`StartTime` attribute is parsed as RFC3339 with `?`. -/
def lap_attrs (attrs : List (String × String)) : Except ReadError ActivityLap :=
  attrs.foldlM (fun lap kv =>
    if kv.1 = "StartTime" then
      match parseRfc3339 kv.2 with
      | .ok dt => .ok { lap with start_time := dt }
      | .error _ => .error .parseDateError
    else .ok lap) ActivityLap.default

def activity_lap_dispatch (n : Nat) (lap : ActivityLap) (name : String)
    (_attrs : List (String × String)) (r : List Tok) : RdResult ActivityLap :=
    if name = "TotalTimeSeconds" then
      read_leaf pF64 (fun w => { lap with total_time_seconds := w }) lap r
    else if name = "DistanceMeters" then
      read_leaf pF64 (fun w => { lap with distance_meters := w }) lap r
    else if name = "MaximumSpeed" then
      read_leaf pF64 (fun w => { lap with maximum_speed := some w }) lap r
    else if name = "Calories" then
      read_leaf pU16 (fun w => { lap with calories := w }) lap r
    else if name = "AverageHeartRateBpm" then
      and_then (opt_read_value_as pU8 n lap.average_heart_rate_bpm r)
        (fun hv r' => some (.ok ({ lap with average_heart_rate_bpm := hv }, r')))
    else if name = "MaximumHeartRateBpm" then
      and_then (opt_read_value_as pU8 n lap.maximum_heart_rate_bpm r)
        (fun hv r' => some (.ok ({ lap with maximum_heart_rate_bpm := hv }, r')))
    else if name = "Intensity" then
      read_leaf pIntensity (fun w => { lap with intensity := w }) lap r
    else if name = "Cadence" then
      read_leaf pU8 (fun w => { lap with cadence := some w }) lap r
    else if name = "TriggerMethod" then
      read_leaf pTriggerMethod (fun w => { lap with trigger_method := w }) lap r
    else if name = "Track" then
      and_then (read_track "Track" n r)
        (fun tps r' => some (.ok ({ lap with track_points := tps }, r')))
    else if name = "Notes" then
      read_leaf pString (fun w => { lap with notes := some w }) lap r
    else some (.ok (lap, r))

/-- The event loop of `read.rs` `read_activity_lap`. -/
def read_activity_lap_loop (close : String) :
    Nat → ActivityLap → List Tok → RdResult ActivityLap :=
  elem_loop close activity_lap_dispatch

/-- `read.rs` `read_activity_lap` (attributes of the `Lap` start element
first, then the loop). -/
def read_activity_lap (close : String) (attrs : List (String × String))
    (fuel : Nat) (evs : List Tok) : RdResult ActivityLap :=
  match lap_attrs attrs with
  | .error e => some (.error e)
  | .ok lap => read_activity_lap_loop close fuel lap evs

def activity_dispatch (n : Nat) (act : Activity) (name : String)
    (attrs : List (String × String)) (r : List Tok) : RdResult Activity :=
    if name = "Id" then
      read_leaf pDate (fun w => { act with id := w }) act r
    else if name = "Lap" then
      and_then (read_activity_lap "Lap" attrs n r)
        (fun lap r' => some (.ok ({ act with laps := act.laps ++ [lap] }, r')))
    else if name = "Notes" then
      read_leaf pString (fun w => { act with notes := some w }) act r
    else if name = "Training" then
      and_then (read_training "Training" n r)
        (fun t r' => some (.ok ({ act with training := some t }, r')))
    else if name = "Creator" then
      match read_type attrs with
      | .error e => some (.error e)
      | .ok ty =>
        if ty = "Application_t" then
          and_then (read_application "Creator" n r)
            (fun a r' => some (.ok ({ act with creator := some (.application a) }, r')))
        else if ty = "Device_t" then
          and_then (read_device "Creator" n r)
            (fun d r' => some (.ok ({ act with creator := some (.device d) }, r')))
        else some (.ok (act, r))
    else if name = "Sport" then
      read_leaf pSport (fun w => { act with sport := w }) act r
    else some (.ok (act, r))

/-- The event loop of `read.rs` `read_activity`. -/
def read_activity_loop (close : String) :
    Nat → Activity → List Tok → RdResult Activity :=
  elem_loop close activity_dispatch

/-- `read.rs` `read_activity`. -/
def read_activity (close : String) (fuel : Nat) (evs : List Tok) :
    RdResult Activity :=
  read_activity_loop close fuel Activity.default evs

def activity_list_dispatch (n : Nat) (al : ActivityList) (name : String)
    (_attrs : List (String × String)) (r : List Tok) : RdResult ActivityList :=
    if name = "Activity" then
      and_then (read_activity "Activity" n r)
        (fun act r' => some (.ok ({ al with activities := al.activities ++ [act] }, r')))
    else some (.ok (al, r))

/-- `read.rs` `read_activity_list`. -/
def read_activity_list (close : String) (fuel : Nat) (evs : List Tok) :
    RdResult ActivityList :=
  elem_loop close activity_list_dispatch fuel ActivityList.default evs

def training_center_dispatch (n : Nat) (db : TrainingCenterDatabase) (name : String)
    (attrs : List (String × String)) (r : List Tok) : RdResult TrainingCenterDatabase :=
    if name = "Author" then
      match read_type attrs with
      | .error e => some (.error e)
      | .ok ty =>
        if ty = "Application_t" then
          and_then (read_application "Author" n r)
            (fun a r' => some (.ok ({ db with author := some (.application a) }, r')))
        else if ty = "Device_t" then
          and_then (read_device "Author" n r)
            (fun d r' => some (.ok ({ db with author := some (.device d) }, r')))
        else some (.ok (db, r))
    else if name = "Activities" then
      and_then (read_activity_list "Activities" n r)
        (fun al r' => some (.ok ({ db with activity_list := some al }, r')))
    else some (.ok (db, r))

/-- The initial `tc_db` value of `read_training_center`. -/
def TrainingCenterDatabase.init : TrainingCenterDatabase :=
  ⟨none, none, none, none, none⟩

/-- The event loop of `read.rs` `read_training_center` (closing tag
`TrainingCenterDatabase`). -/
def read_training_center_loop :
    Nat → TrainingCenterDatabase → List Tok → RdResult TrainingCenterDatabase :=
  elem_loop "TrainingCenterDatabase" training_center_dispatch

/-- `read.rs` `read_training_center`. -/
def read_training_center (fuel : Nat) (evs : List Tok) :
    RdResult TrainingCenterDatabase :=
  read_training_center_loop fuel TrainingCenterDatabase.init evs

/-- `lib.rs` `read`: construct the tokenizer over the input and run
`read_training_center`. -/
def read (fuel : Nat) (evs : List Tok) : RdResult TrainingCenterDatabase :=
  read_training_center fuel evs

/-- A fuel-indexed reader run diverges: no amount of fuel makes it return
(the corresponding Rust loop never exits). -/
def never_returns {α : Type} (rd : Nat → RdResult α) : Prop :=
  ∀ fuel, rd fuel = none

/-! ## Generic lemmas about the loop shape -/

/-- On an exhausted stream every loop just spins (the catch-all arm of the
Rust `match` also covers `Event::Eof`), so no amount of fuel makes it
return. -/
theorem elem_loop_nil {σ : Type} (close : String)
    (dispatch : Nat → σ → String → List (String × String) → List Tok → RdResult σ) :
    ∀ n st, elem_loop close dispatch n st [] = none := by
  intro n
  induction n with
  | zero => intro st; rfl
  | succ n ih => intro st; rw [elem_loop]; exact ih st

/-- Inversion for `and_then` on a successful outcome. -/
theorem and_then_ok {α σ : Type} {x : RdResult α} {f : α → List Tok → RdResult σ}
    {b : σ} {r' : List Tok} (h : and_then x f = some (.ok (b, r'))) :
    ∃ a r1, x = some (.ok (a, r1)) ∧ f a r1 = some (.ok (b, r')) := by
  match x with
  | none => simp [and_then] at h
  | some (.error e) => simp [and_then] at h
  | some (.ok (a, r1)) => exact ⟨a, r1, rfl, h⟩

/-- `read_text_event` consumes at most one event, so its leftover is a suffix
of its input. -/
theorem read_text_event_suffix {α : Type} (parse : String → Except ReadError α)
    {r : List Tok} {ov : Option α} {r' : List Tok}
    (h : read_text_event parse r = .ok (ov, r')) : ∃ p, r = p ++ r' := by
  match r with
  | [] =>
    simp [read_text_event] at h
    exact ⟨[], by simp [h.2]⟩
  | .text s :: rest =>
    rw [read_text_event] at h
    match hp : parse s with
    | .ok v => rw [hp] at h; simp at h; exact ⟨[.text s], by simp [h.2]⟩
    | .error e => rw [hp] at h; simp at h
  | .startTag name attrs :: rest =>
    simp [read_text_event] at h; exact ⟨[.startTag name attrs], by simp [h.2]⟩
  | .endTag name :: rest =>
    simp [read_text_event] at h; exact ⟨[.endTag name], by simp [h.2]⟩
  | .err e :: rest =>
    simp [read_text_event] at h; exact ⟨.err e :: rest, by simp [h.2]⟩
  | .other :: rest =>
    simp [read_text_event] at h; exact ⟨[.other], by simp [h.2]⟩

/-- `read_leaf` consumes at most one event. -/
theorem read_leaf_suffix {α σ : Type} (parse : String → Except ReadError α)
    (set : α → σ) (keep : σ) {r : List Tok} {st : σ} {r' : List Tok}
    (h : read_leaf parse set keep r = some (.ok (st, r'))) : ∃ p, r = p ++ r' := by
  rw [read_leaf] at h
  match hr : read_text_event parse r with
  | .error e => rw [hr] at h; simp at h
  | .ok (some w, rr) =>
    rw [hr] at h; simp at h
    exact h.2 ▸ read_text_event_suffix parse hr
  | .ok (none, rr) =>
    rw [hr] at h; simp at h
    exact h.2 ▸ read_text_event_suffix parse hr

/-- A successful run of any reader loop consumes exactly a prefix of the
stream ending at an `End` event that bears the loop's closing name: the
returned leftover `rest` is what follows the first such `End` event the loop
reaches.  Requires only that the dispatch function hands back a suffix of the
stream it was given. -/
theorem elem_loop_ends {σ : Type} (close : String)
    (dispatch : Nat → σ → String → List (String × String) → List Tok → RdResult σ)
    (hd : ∀ n st name attrs r st' r',
      dispatch n st name attrs r = some (.ok (st', r')) → ∃ p, r = p ++ r') :
    ∀ n st evs v rest, elem_loop close dispatch n st evs = some (.ok (v, rest)) →
      ∃ pre, evs = pre ++ Tok.endTag close :: rest := by
  intro n
  induction n with
  | zero => intro st evs v rest h; simp [elem_loop] at h
  | succ n ih =>
    intro st evs v rest h
    match evs with
    | [] => exact ih st [] v rest h
    | .startTag name attrs :: r =>
      rw [elem_loop] at h
      obtain ⟨st', r', hdisp, hloop⟩ := and_then_ok h
      obtain ⟨p, hp⟩ := hd n st name attrs r st' r' hdisp
      obtain ⟨pre, hpre⟩ := ih st' r' v rest hloop
      exact ⟨.startTag name attrs :: p ++ pre, by simp [hp, hpre]⟩
    | .endTag name :: r =>
      rw [elem_loop] at h
      by_cases hn : name = close
      · rw [if_pos hn] at h
        simp at h
        exact ⟨[], by simp [hn, h.2]⟩
      · rw [if_neg hn] at h
        obtain ⟨pre, hpre⟩ := ih st r v rest h
        exact ⟨.endTag name :: pre, by simp [hpre]⟩
    | .text s :: r =>
      rw [elem_loop] at h
      obtain ⟨pre, hpre⟩ := ih st r v rest h
      exact ⟨.text s :: pre, by simp [hpre]⟩
    | .err e :: r =>
      rw [elem_loop] at h
      simp at h
    | .other :: r =>
      rw [elem_loop] at h
      obtain ⟨pre, hpre⟩ := ih st r v rest h
      exact ⟨.other :: pre, by simp [hpre]⟩

/-- A dispatch arm of the form `and_then child (fun a rr => some (.ok (g a, rr)))`
succeeds exactly when the child does, with the same leftover stream. -/
theorem and_then_pure {α σ : Type} (x : RdResult α) (g : α → σ)
    {st' : σ} {r' : List Tok}
    (h : and_then x (fun a rr => some (.ok (g a, rr))) = some (.ok (st', r'))) :
    ∃ a, x = some (.ok (a, r')) := by
  obtain ⟨a, r1, hx, hf⟩ := and_then_ok h
  simp at hf
  exact ⟨a, hf.2 ▸ hx⟩

theorem version_dispatch_suffix : ∀ (n : Nat) (st : Version) (name : String)
    (attrs : List (String × String)) (r : List Tok) (st' : Version) (r' : List Tok),
    version_dispatch n st name attrs r = some (.ok (st', r')) → ∃ p, r = p ++ r' := by
  intro n st name attrs r st' r' h
  simp only [version_dispatch] at h
  repeat' split at h
  all_goals first
    | exact read_leaf_suffix _ _ _ h
    | (simp at h; exact ⟨[], by simp [h.2]⟩)

/-- `read_version` stops at the first `End` event named `Version`. -/
theorem read_version_ends {n : Nat} {evs : List Tok} {v : Version} {rest : List Tok}
    (h : read_version n evs = some (.ok (v, rest))) :
    ∃ pre, evs = pre ++ Tok.endTag "Version" :: rest :=
  elem_loop_ends "Version" version_dispatch version_dispatch_suffix n
    Version.default evs v rest h

theorem build_dispatch_suffix : ∀ (n : Nat) (st : Build) (name : String)
    (attrs : List (String × String)) (r : List Tok) (st' : Build) (r' : List Tok),
    build_dispatch n st name attrs r = some (.ok (st', r')) → ∃ p, r = p ++ r' := by
  intro n st name attrs r st' r' h
  simp only [build_dispatch] at h
  split at h
  · obtain ⟨a, hx⟩ := and_then_pure _ _ h
    obtain ⟨p, hp⟩ := read_version_ends hx
    exact ⟨p ++ [Tok.endTag "Version"], by simp [hp]⟩
  · repeat' split at h
    all_goals first
      | exact read_leaf_suffix _ _ _ h
      | (simp at h; exact ⟨[], by simp [h.2]⟩)

/-- `read_build` stops at the first `End` event named `Build`. -/
theorem read_build_ends {n : Nat} {evs : List Tok} {b : Build} {rest : List Tok}
    (h : read_build n evs = some (.ok (b, rest))) :
    ∃ pre, evs = pre ++ Tok.endTag "Build" :: rest :=
  elem_loop_ends "Build" build_dispatch build_dispatch_suffix n
    Build.default evs b rest h

theorem application_dispatch_suffix : ∀ (n : Nat) (st : Application) (name : String)
    (attrs : List (String × String)) (r : List Tok) (st' : Application) (r' : List Tok),
    application_dispatch n st name attrs r = some (.ok (st', r')) → ∃ p, r = p ++ r' := by
  intro n st name attrs r st' r' h
  simp only [application_dispatch] at h
  split at h
  · exact read_leaf_suffix _ _ _ h
  split at h
  · obtain ⟨a, hx⟩ := and_then_pure _ _ h
    obtain ⟨p, hp⟩ := read_build_ends hx
    exact ⟨p ++ [Tok.endTag "Build"], by simp [hp]⟩
  · repeat' split at h
    all_goals first
      | exact read_leaf_suffix _ _ _ h
      | (simp at h; exact ⟨[], by simp [h.2]⟩)

/-- `read_application` stops at the first `End` event bearing its closing
name. -/
theorem read_application_ends {close : String} {n : Nat} {evs : List Tok}
    {a : Application} {rest : List Tok}
    (h : read_application close n evs = some (.ok (a, rest))) :
    ∃ pre, evs = pre ++ Tok.endTag close :: rest :=
  elem_loop_ends close application_dispatch application_dispatch_suffix n
    Application.default evs a rest h

theorem device_dispatch_suffix : ∀ (n : Nat) (st : Device) (name : String)
    (attrs : List (String × String)) (r : List Tok) (st' : Device) (r' : List Tok),
    device_dispatch n st name attrs r = some (.ok (st', r')) → ∃ p, r = p ++ r' := by
  intro n st name attrs r st' r' h
  simp only [device_dispatch] at h
  split at h
  · exact read_leaf_suffix _ _ _ h
  split at h
  · exact read_leaf_suffix _ _ _ h
  split at h
  · exact read_leaf_suffix _ _ _ h
  split at h
  · obtain ⟨a, hx⟩ := and_then_pure _ _ h
    obtain ⟨p, hp⟩ := read_version_ends hx
    exact ⟨p ++ [Tok.endTag "Version"], by simp [hp]⟩
  · simp at h; exact ⟨[], by simp [h.2]⟩

/-- `read_device` stops at the first `End` event bearing its closing name. -/
theorem read_device_ends {close : String} {n : Nat} {evs : List Tok}
    {d : Device} {rest : List Tok}
    (h : read_device close n evs = some (.ok (d, rest))) :
    ∃ pre, evs = pre ++ Tok.endTag close :: rest :=
  elem_loop_ends close device_dispatch device_dispatch_suffix n
    Device.default evs d rest h

theorem opt_value_dispatch_suffix {α : Type} (parse : String → Except ReadError α) :
    ∀ (n : Nat) (st : Option α) (name : String)
    (attrs : List (String × String)) (r : List Tok) (st' : Option α) (r' : List Tok),
    opt_value_dispatch parse n st name attrs r = some (.ok (st', r')) → ∃ p, r = p ++ r' := by
  intro n st name attrs r st' r' h
  simp only [opt_value_dispatch] at h
  split at h
  · exact read_leaf_suffix _ _ _ h
  · simp at h; exact ⟨[], by simp [h.2]⟩

/-- The `opt_read_value_as!` loop stops at the first `End` event named
`Value` — wherever in the stream that event happens to be. -/
theorem opt_read_value_as_ends {α : Type} (parse : String → Except ReadError α)
    {n : Nat} {st : Option α} {evs : List Tok} {v : Option α} {rest : List Tok}
    (h : opt_read_value_as parse n st evs = some (.ok (v, rest))) :
    ∃ pre, evs = pre ++ Tok.endTag "Value" :: rest :=
  elem_loop_ends "Value" (opt_value_dispatch parse)
    (opt_value_dispatch_suffix parse) n st evs v rest h

theorem must_value_dispatch_suffix {α : Type} (parse : String → Except ReadError α) :
    ∀ (n : Nat) (st : α) (name : String)
    (attrs : List (String × String)) (r : List Tok) (st' : α) (r' : List Tok),
    must_value_dispatch parse n st name attrs r = some (.ok (st', r')) → ∃ p, r = p ++ r' := by
  intro n st name attrs r st' r' h
  simp only [must_value_dispatch] at h
  split at h
  · exact read_leaf_suffix _ _ _ h
  · simp at h; exact ⟨[], by simp [h.2]⟩

/-- The `must_read_value_as!` loop stops at the first `End` event named
`Value`. -/
theorem must_read_value_as_ends {α : Type} (parse : String → Except ReadError α)
    {n : Nat} {st : α} {evs : List Tok} {v : α} {rest : List Tok}
    (h : must_read_value_as parse n st evs = some (.ok (v, rest))) :
    ∃ pre, evs = pre ++ Tok.endTag "Value" :: rest :=
  elem_loop_ends "Value" (must_value_dispatch parse)
    (must_value_dispatch_suffix parse) n st evs v rest h

theorem position_dispatch_suffix : ∀ (n : Nat) (st : Position) (name : String)
    (attrs : List (String × String)) (r : List Tok) (st' : Position) (r' : List Tok),
    position_dispatch n st name attrs r = some (.ok (st', r')) → ∃ p, r = p ++ r' := by
  intro n st name attrs r st' r' h
  simp only [position_dispatch] at h
  repeat' split at h
  all_goals first
    | exact read_leaf_suffix _ _ _ h
    | (simp at h; exact ⟨[], by simp [h.2]⟩)

/-- `read_position` stops at the first `End` event bearing its closing name. -/
theorem read_position_ends {close : String} {n : Nat} {evs : List Tok}
    {p : Position} {rest : List Tok}
    (h : read_position close n evs = some (.ok (p, rest))) :
    ∃ pre, evs = pre ++ Tok.endTag close :: rest :=
  elem_loop_ends close position_dispatch position_dispatch_suffix n
    Position.default evs p rest h

theorem track_point_dispatch_suffix : ∀ (n : Nat) (st : TrackPoint) (name : String)
    (attrs : List (String × String)) (r : List Tok) (st' : TrackPoint) (r' : List Tok),
    track_point_dispatch n st name attrs r = some (.ok (st', r')) → ∃ p, r = p ++ r' := by
  intro n st name attrs r st' r' h
  simp only [track_point_dispatch] at h
  split at h
  · exact read_leaf_suffix _ _ _ h
  split at h
  · obtain ⟨a, hx⟩ := and_then_pure _ _ h
    obtain ⟨p, hp⟩ := read_position_ends hx
    exact ⟨p ++ [Tok.endTag "Position"], by simp [hp]⟩
  split at h
  · exact read_leaf_suffix _ _ _ h
  split at h
  · exact read_leaf_suffix _ _ _ h
  split at h
  · obtain ⟨a, hx⟩ := and_then_pure _ _ h
    obtain ⟨p, hp⟩ := opt_read_value_as_ends pU8 hx
    exact ⟨p ++ [Tok.endTag "Value"], by simp [hp]⟩
  split at h
  · exact read_leaf_suffix _ _ _ h
  split at h
  · exact read_leaf_suffix _ _ _ h
  · simp at h; exact ⟨[], by simp [h.2]⟩

/-- `read_track_point` stops at the first `End` event bearing its closing
name. -/
theorem read_track_point_ends {close : String} {n : Nat} {evs : List Tok}
    {tp : TrackPoint} {rest : List Tok}
    (h : read_track_point close n evs = some (.ok (tp, rest))) :
    ∃ pre, evs = pre ++ Tok.endTag close :: rest :=
  elem_loop_ends close track_point_dispatch track_point_dispatch_suffix n
    TrackPoint.default evs tp rest h

theorem track_dispatch_suffix : ∀ (n : Nat) (st : List TrackPoint) (name : String)
    (attrs : List (String × String)) (r : List Tok) (st' : List TrackPoint) (r' : List Tok),
    track_dispatch n st name attrs r = some (.ok (st', r')) → ∃ p, r = p ++ r' := by
  intro n st name attrs r st' r' h
  simp only [track_dispatch] at h
  split at h
  · obtain ⟨a, hx⟩ := and_then_pure _ _ h
    obtain ⟨p, hp⟩ := read_track_point_ends hx
    exact ⟨p ++ [Tok.endTag "Trackpoint"], by simp [hp]⟩
  · simp at h; exact ⟨[], by simp [h.2]⟩

/-- `read_track` stops at the first `End` event bearing its closing name. -/
theorem read_track_ends {close : String} {n : Nat} {evs : List Tok}
    {tps : List TrackPoint} {rest : List Tok}
    (h : read_track close n evs = some (.ok (tps, rest))) :
    ∃ pre, evs = pre ++ Tok.endTag close :: rest :=
  elem_loop_ends close track_dispatch track_dispatch_suffix n [] evs tps rest h

theorem quick_workout_dispatch_suffix : ∀ (n : Nat) (st : QuickWorkout) (name : String)
    (attrs : List (String × String)) (r : List Tok) (st' : QuickWorkout) (r' : List Tok),
    quick_workout_dispatch n st name attrs r = some (.ok (st', r')) → ∃ p, r = p ++ r' := by
  intro n st name attrs r st' r' h
  simp only [quick_workout_dispatch] at h
  repeat' split at h
  all_goals first
    | exact read_leaf_suffix _ _ _ h
    | (simp at h; exact ⟨[], by simp [h.2]⟩)

/-- `read_quick_workout` stops at the first `End` event bearing its closing
name. -/
theorem read_quick_workout_ends {close : String} {n : Nat} {evs : List Tok}
    {q : QuickWorkout} {rest : List Tok}
    (h : read_quick_workout close n evs = some (.ok (q, rest))) :
    ∃ pre, evs = pre ++ Tok.endTag close :: rest :=
  elem_loop_ends close quick_workout_dispatch quick_workout_dispatch_suffix n
    QuickWorkout.default evs q rest h

theorem plan_dispatch_suffix : ∀ (n : Nat) (st : Plan) (name : String)
    (attrs : List (String × String)) (r : List Tok) (st' : Plan) (r' : List Tok),
    plan_dispatch n st name attrs r = some (.ok (st', r')) → ∃ p, r = p ++ r' := by
  intro n st name attrs r st' r' h
  simp only [plan_dispatch] at h
  repeat' split at h
  all_goals first
    | exact read_leaf_suffix _ _ _ h
    | (simp at h; exact ⟨[], by simp [h.2]⟩)

/-- `read_plan` stops at the first `End` event bearing its closing name. -/
theorem read_plan_ends {close : String} {attrs : List (String × String)}
    {n : Nat} {evs : List Tok} {p : Plan} {rest : List Tok}
    (h : read_plan close attrs n evs = some (.ok (p, rest))) :
    ∃ pre, evs = pre ++ Tok.endTag close :: rest := by
  rw [read_plan] at h
  match ha : plan_attrs attrs with
  | .error e => rw [ha] at h; simp at h
  | .ok p0 =>
    rw [ha] at h
    exact elem_loop_ends close plan_dispatch plan_dispatch_suffix n p0 evs p rest h

theorem training_dispatch_suffix : ∀ (n : Nat) (st : Training) (name : String)
    (attrs : List (String × String)) (r : List Tok) (st' : Training) (r' : List Tok),
    training_dispatch n st name attrs r = some (.ok (st', r')) → ∃ p, r = p ++ r' := by
  intro n st name attrs r st' r' h
  simp only [training_dispatch] at h
  split at h
  · obtain ⟨a, hx⟩ := and_then_pure _ _ h
    obtain ⟨p, hp⟩ := read_quick_workout_ends hx
    exact ⟨p ++ [Tok.endTag "QuickWorkoutResults"], by simp [hp]⟩
  split at h
  · obtain ⟨a, hx⟩ := and_then_pure _ _ h
    obtain ⟨p, hp⟩ := read_plan_ends hx
    exact ⟨p ++ [Tok.endTag "Plan"], by simp [hp]⟩
  · simp at h; exact ⟨[], by simp [h.2]⟩

/-- `read_training` stops at the first `End` event bearing its closing name. -/
theorem read_training_ends {close : String} {n : Nat} {evs : List Tok}
    {t : Training} {rest : List Tok}
    (h : read_training close n evs = some (.ok (t, rest))) :
    ∃ pre, evs = pre ++ Tok.endTag close :: rest :=
  elem_loop_ends close training_dispatch training_dispatch_suffix n
    Training.default evs t rest h

theorem activity_lap_dispatch_suffix : ∀ (n : Nat) (st : ActivityLap) (name : String)
    (attrs : List (String × String)) (r : List Tok) (st' : ActivityLap) (r' : List Tok),
    activity_lap_dispatch n st name attrs r = some (.ok (st', r')) → ∃ p, r = p ++ r' := by
  intro n st name attrs r st' r' h
  unfold activity_lap_dispatch at h
  by_cases h1 : name = "TotalTimeSeconds"
  · rw [if_pos h1] at h
    exact read_leaf_suffix _ _ _ h
  rw [if_neg h1] at h
  by_cases h2 : name = "DistanceMeters"
  · rw [if_pos h2] at h
    exact read_leaf_suffix _ _ _ h
  rw [if_neg h2] at h
  by_cases h3 : name = "MaximumSpeed"
  · rw [if_pos h3] at h
    exact read_leaf_suffix _ _ _ h
  rw [if_neg h3] at h
  by_cases h4 : name = "Calories"
  · rw [if_pos h4] at h
    exact read_leaf_suffix _ _ _ h
  rw [if_neg h4] at h
  by_cases h5 : name = "AverageHeartRateBpm"
  · rw [if_pos h5] at h
    obtain ⟨a, hx⟩ := and_then_pure _ _ h
    obtain ⟨p, hp⟩ := opt_read_value_as_ends pU8 hx
    exact ⟨p ++ [Tok.endTag "Value"], by simp [hp]⟩
  rw [if_neg h5] at h
  by_cases h6 : name = "MaximumHeartRateBpm"
  · rw [if_pos h6] at h
    obtain ⟨a, hx⟩ := and_then_pure _ _ h
    obtain ⟨p, hp⟩ := opt_read_value_as_ends pU8 hx
    exact ⟨p ++ [Tok.endTag "Value"], by simp [hp]⟩
  rw [if_neg h6] at h
  by_cases h7 : name = "Intensity"
  · rw [if_pos h7] at h
    exact read_leaf_suffix _ _ _ h
  rw [if_neg h7] at h
  by_cases h8 : name = "Cadence"
  · rw [if_pos h8] at h
    exact read_leaf_suffix _ _ _ h
  rw [if_neg h8] at h
  by_cases h9 : name = "TriggerMethod"
  · rw [if_pos h9] at h
    exact read_leaf_suffix _ _ _ h
  rw [if_neg h9] at h
  by_cases h10 : name = "Track"
  · rw [if_pos h10] at h
    obtain ⟨a, hx⟩ := and_then_pure _ _ h
    obtain ⟨p, hp⟩ := read_track_ends hx
    exact ⟨p ++ [Tok.endTag "Track"], by simp [hp]⟩
  rw [if_neg h10] at h
  by_cases h11 : name = "Notes"
  · rw [if_pos h11] at h
    exact read_leaf_suffix _ _ _ h
  rw [if_neg h11] at h
  simp at h
  exact ⟨[], by simp [h.2]⟩

/-- The `read_activity_lap` loop stops at the first `End` event bearing its
closing name. -/
theorem read_activity_lap_ends {close : String} {attrs : List (String × String)}
    {n : Nat} {evs : List Tok} {lap : ActivityLap} {rest : List Tok}
    (h : read_activity_lap close attrs n evs = some (.ok (lap, rest))) :
    ∃ pre, evs = pre ++ Tok.endTag close :: rest := by
  rw [read_activity_lap] at h
  match ha : lap_attrs attrs with
  | .error e => rw [ha] at h; simp at h
  | .ok lap0 =>
    rw [ha] at h
    exact elem_loop_ends close activity_lap_dispatch activity_lap_dispatch_suffix n
      lap0 evs lap rest h

theorem activity_dispatch_suffix : ∀ (n : Nat) (st : Activity) (name : String)
    (attrs : List (String × String)) (r : List Tok) (st' : Activity) (r' : List Tok),
    activity_dispatch n st name attrs r = some (.ok (st', r')) → ∃ p, r = p ++ r' := by
  intro n st name attrs r st' r' h
  unfold activity_dispatch at h
  by_cases h1 : name = "Id"
  · rw [if_pos h1] at h
    exact read_leaf_suffix _ _ _ h
  rw [if_neg h1] at h
  by_cases h2 : name = "Lap"
  · rw [if_pos h2] at h
    obtain ⟨a, hx⟩ := and_then_pure _ _ h
    obtain ⟨p, hp⟩ := read_activity_lap_ends hx
    exact ⟨p ++ [Tok.endTag "Lap"], by simp [hp]⟩
  rw [if_neg h2] at h
  by_cases h3 : name = "Notes"
  · rw [if_pos h3] at h
    exact read_leaf_suffix _ _ _ h
  rw [if_neg h3] at h
  by_cases h4 : name = "Training"
  · rw [if_pos h4] at h
    obtain ⟨a, hx⟩ := and_then_pure _ _ h
    obtain ⟨p, hp⟩ := read_training_ends hx
    exact ⟨p ++ [Tok.endTag "Training"], by simp [hp]⟩
  rw [if_neg h4] at h
  by_cases h5 : name = "Creator"
  · rw [if_pos h5] at h
    split at h
    · simp at h
    next ty _heq =>
      by_cases hty : ty = "Application_t"
      · rw [if_pos hty] at h
        obtain ⟨a, hx⟩ := and_then_pure _ _ h
        obtain ⟨p, hp⟩ := read_application_ends hx
        exact ⟨p ++ [Tok.endTag "Creator"], by simp [hp]⟩
      rw [if_neg hty] at h
      by_cases hty2 : ty = "Device_t"
      · rw [if_pos hty2] at h
        obtain ⟨a, hx⟩ := and_then_pure _ _ h
        obtain ⟨p, hp⟩ := read_device_ends hx
        exact ⟨p ++ [Tok.endTag "Creator"], by simp [hp]⟩
      · rw [if_neg hty2] at h
        simp at h
        exact ⟨[], by simp [h.2]⟩
  rw [if_neg h5] at h
  by_cases h6 : name = "Sport"
  · rw [if_pos h6] at h
    exact read_leaf_suffix _ _ _ h
  rw [if_neg h6] at h
  simp at h
  exact ⟨[], by simp [h.2]⟩

/-- The `read_activity` loop stops at the first `End` event bearing its
closing name. -/
theorem read_activity_ends {close : String} {n : Nat} {st : Activity}
    {evs : List Tok} {act : Activity} {rest : List Tok}
    (h : read_activity_loop close n st evs = some (.ok (act, rest))) :
    ∃ pre, evs = pre ++ Tok.endTag close :: rest :=
  elem_loop_ends close activity_dispatch activity_dispatch_suffix n st evs act rest h

theorem activity_list_dispatch_suffix : ∀ (n : Nat) (st : ActivityList) (name : String)
    (attrs : List (String × String)) (r : List Tok) (st' : ActivityList) (r' : List Tok),
    activity_list_dispatch n st name attrs r = some (.ok (st', r')) → ∃ p, r = p ++ r' := by
  intro n st name attrs r st' r' h
  unfold activity_list_dispatch at h
  split at h
  · obtain ⟨a, hx⟩ := and_then_pure _ _ h
    obtain ⟨p, hp⟩ := read_activity_ends hx
    exact ⟨p ++ [Tok.endTag "Activity"], by simp [hp]⟩
  · simp at h; exact ⟨[], by simp [h.2]⟩

/-- `read_activity_list` stops at the first `End` event bearing its closing
name. -/
theorem read_activity_list_ends {close : String} {n : Nat} {evs : List Tok}
    {al : ActivityList} {rest : List Tok}
    (h : read_activity_list close n evs = some (.ok (al, rest))) :
    ∃ pre, evs = pre ++ Tok.endTag close :: rest :=
  elem_loop_ends close activity_list_dispatch activity_list_dispatch_suffix n
    ActivityList.default evs al rest h

theorem training_center_dispatch_suffix : ∀ (n : Nat) (st : TrainingCenterDatabase)
    (name : String) (attrs : List (String × String)) (r : List Tok)
    (st' : TrainingCenterDatabase) (r' : List Tok),
    training_center_dispatch n st name attrs r = some (.ok (st', r')) → ∃ p, r = p ++ r' := by
  intro n st name attrs r st' r' h
  unfold training_center_dispatch at h
  by_cases h1 : name = "Author"
  · rw [if_pos h1] at h
    split at h
    · simp at h
    next ty _heq =>
      by_cases hty : ty = "Application_t"
      · rw [if_pos hty] at h
        obtain ⟨a, hx⟩ := and_then_pure _ _ h
        obtain ⟨p, hp⟩ := read_application_ends hx
        exact ⟨p ++ [Tok.endTag "Author"], by simp [hp]⟩
      rw [if_neg hty] at h
      by_cases hty2 : ty = "Device_t"
      · rw [if_pos hty2] at h
        obtain ⟨a, hx⟩ := and_then_pure _ _ h
        obtain ⟨p, hp⟩ := read_device_ends hx
        exact ⟨p ++ [Tok.endTag "Author"], by simp [hp]⟩
      · rw [if_neg hty2] at h
        simp at h
        exact ⟨[], by simp [h.2]⟩
  rw [if_neg h1] at h
  by_cases h2 : name = "Activities"
  · rw [if_pos h2] at h
    obtain ⟨a, hx⟩ := and_then_pure _ _ h
    obtain ⟨p, hp⟩ := read_activity_list_ends hx
    exact ⟨p ++ [Tok.endTag "Activities"], by simp [hp]⟩
  rw [if_neg h2] at h
  simp at h
  exact ⟨[], by simp [h.2]⟩

/-- The `read_training_center` loop stops at the first `End` event named
`TrainingCenterDatabase`. -/
theorem read_training_center_ends {n : Nat} {st : TrainingCenterDatabase}
    {evs : List Tok} {db : TrainingCenterDatabase} {rest : List Tok}
    (h : read_training_center_loop n st evs = some (.ok (db, rest))) :
    ∃ pre, evs = pre ++ Tok.endTag "TrainingCenterDatabase" :: rest :=
  elem_loop_ends "TrainingCenterDatabase" training_center_dispatch
    training_center_dispatch_suffix n st evs db rest h

/-- A reader loop relates its final state to its initial state by any
reflexive-transitive relation that every successful dispatch step
preserves. -/
theorem elem_loop_inv {σ : Type} (close : String)
    (dispatch : Nat → σ → String → List (String × String) → List Tok → RdResult σ)
    (R : σ → σ → Prop) (hrefl : ∀ st, R st st)
    (htrans : ∀ a b c, R a b → R b c → R a c)
    (hd : ∀ n st name attrs r st' r',
      dispatch n st name attrs r = some (.ok (st', r')) → R st st') :
    ∀ n st evs v rest, elem_loop close dispatch n st evs = some (.ok (v, rest)) →
      R st v := by
  intro n
  induction n with
  | zero => intro st evs v rest h; simp [elem_loop] at h
  | succ n ih =>
    intro st evs v rest h
    match evs with
    | [] => exact ih st [] v rest h
    | .startTag name attrs :: r =>
      rw [elem_loop] at h
      obtain ⟨st', r', hdisp, hloop⟩ := and_then_ok h
      exact htrans st st' v (hd n st name attrs r st' r' hdisp) (ih st' r' v rest hloop)
    | .endTag name :: r =>
      rw [elem_loop] at h
      by_cases hn : name = close
      · rw [if_pos hn] at h
        simp at h
        exact h.1 ▸ hrefl st
      · rw [if_neg hn] at h
        exact ih st r v rest h
    | .text s :: r =>
      rw [elem_loop] at h
      exact ih st r v rest h
    | .err e :: r =>
      rw [elem_loop] at h
      simp at h
    | .other :: r =>
      rw [elem_loop] at h
      exact ih st r v rest h

/-- The `read_activity_list` loop only ever appends to `activities`; its
`multi_sport_sessions` field is whatever the initial state carried. -/
theorem read_activity_list_msess {close : String} {n : Nat} {evs : List Tok}
    {al : ActivityList} {rest : List Tok}
    (h : read_activity_list close n evs = some (.ok (al, rest))) :
    al.multi_sport_sessions = [] := by
  have inv := elem_loop_inv close activity_list_dispatch
    (fun a b => b.multi_sport_sessions = a.multi_sport_sessions)
    (fun st => rfl) (fun a b c hab hbc => hbc.trans hab)
    (by
      intro n st name attrs r st' r' hd
      unfold activity_list_dispatch at hd
      split at hd
      · obtain ⟨a, hx⟩ := and_then_pure _ _ hd
        obtain ⟨act, r1, _, hf⟩ := and_then_ok hd
        simp at hf
        rw [← hf.1]
      · simp at hd
        rw [← hd.1])
    n ActivityList.default evs al rest h
  exact inv

/-- The relation preserved by every step of the `read_training_center` loop:
the three never-touched sections are unchanged, and the activity list is
either unchanged or freshly produced by `read_activity_list` (hence with no
multi-sport sessions). -/
def TcInv (a b : TrainingCenterDatabase) : Prop :=
  b.folders = a.folders ∧ b.workout_list = a.workout_list ∧
    b.course_list = a.course_list ∧
    (b.activity_list = a.activity_list ∨
      ∃ al, b.activity_list = some al ∧ al.multi_sport_sessions = [])

theorem tc_inv_refl (st : TrainingCenterDatabase) : TcInv st st :=
  ⟨rfl, rfl, rfl, .inl rfl⟩

theorem tc_inv_trans (a b c : TrainingCenterDatabase) (hab : TcInv a b)
    (hbc : TcInv b c) : TcInv a c := by
  obtain ⟨f1, w1, c1, al1⟩ := hab
  obtain ⟨f2, w2, c2, al2⟩ := hbc
  refine ⟨f2.trans f1, w2.trans w1, c2.trans c1, ?_⟩
  rcases al2 with h2 | ⟨al, hal, hm⟩
  · rcases al1 with h1 | ⟨al, hal, hm⟩
    · exact .inl (h2.trans h1)
    · exact .inr ⟨al, h2.trans hal, hm⟩
  · exact .inr ⟨al, hal, hm⟩

theorem training_center_dispatch_inv : ∀ (n : Nat) (st : TrainingCenterDatabase)
    (name : String) (attrs : List (String × String)) (r : List Tok)
    (st' : TrainingCenterDatabase) (r' : List Tok),
    training_center_dispatch n st name attrs r = some (.ok (st', r')) → TcInv st st' := by
  intro n st name attrs r st' r' h
  unfold training_center_dispatch at h
  by_cases h1 : name = "Author"
  · rw [if_pos h1] at h
    split at h
    · simp at h
    next ty _heq =>
      by_cases hty : ty = "Application_t"
      · rw [if_pos hty] at h
        obtain ⟨a, r1, _, hf⟩ := and_then_ok h
        simp at hf
        rw [← hf.1]
        exact ⟨rfl, rfl, rfl, .inl rfl⟩
      rw [if_neg hty] at h
      by_cases hty2 : ty = "Device_t"
      · rw [if_pos hty2] at h
        obtain ⟨a, r1, _, hf⟩ := and_then_ok h
        simp at hf
        rw [← hf.1]
        exact ⟨rfl, rfl, rfl, .inl rfl⟩
      · rw [if_neg hty2] at h
        simp at h
        rw [← h.1]
        exact tc_inv_refl st
  rw [if_neg h1] at h
  by_cases h2 : name = "Activities"
  · rw [if_pos h2] at h
    obtain ⟨al, r1, hx, hf⟩ := and_then_ok h
    simp at hf
    rw [← hf.1]
    exact ⟨rfl, rfl, rfl, .inr ⟨al, rfl, read_activity_list_msess hx⟩⟩
  rw [if_neg h2] at h
  simp at h
  rw [← h.1]
  exact tc_inv_refl st

/-! ## Claims -/

/-- C1: for mandatory scalar fields (exemplified by `ActivityLap.calories`,
`ActivityLap.total_time_seconds`, `Position.latitude_degrees`): when the child
element is present but its text fails to parse, the read fails with the
kind-specific parse error (`ParseIntError` / `ParseFloatError`); when the
child element never appears in the entity's subtree, the read succeeds and
the field holds the type default (`0` for `Calories`, `0.0` for the float
fields), as witnessed by the whole entity equalling its `default` value. -/
theorem c1_mandatory_scalar_fields :
    (∀ (close : String) (n : Nat) (s : String) (e : IntErr) (rest : List Tok),
      parseU16 s = .error e →
      read_activity_lap close [] (n + 1)
          (.startTag "Calories" [] :: .text s :: rest) =
        some (.error (.parseIntError e))) ∧
    (∀ (close : String) (n : Nat) (s : String) (e : FloatErr) (rest : List Tok),
      parseF64 s = .error e →
      read_activity_lap close [] (n + 1)
          (.startTag "TotalTimeSeconds" [] :: .text s :: rest) =
        some (.error (.parseFloatError e))) ∧
    (∀ (close : String) (n : Nat) (s : String) (e : FloatErr) (rest : List Tok),
      parseF64 s = .error e →
      read_position close (n + 1)
          (.startTag "LatitudeDegrees" [] :: .text s :: rest) =
        some (.error (.parseFloatError e))) ∧
    (∀ n : Nat, read_activity_lap "Lap" [] (n + 1) [.endTag "Lap"] =
      some (.ok (ActivityLap.default, []))) ∧
    (∀ n : Nat, read_position "Position" (n + 1) [.endTag "Position"] =
      some (.ok (Position.default, []))) ∧
    ActivityLap.default.calories = 0 ∧
    ActivityLap.default.total_time_seconds = F64.zero ∧
    Position.default.latitude_degrees = F64.zero := by
  refine ⟨?_, ?_, ?_, ?_, ?_, rfl, rfl, rfl⟩
  · intro close n s e rest hp
    simp [read_activity_lap, lap_attrs, read_activity_lap_loop, elem_loop,
      activity_lap_dispatch, and_then, read_leaf, read_text_event, pU16, hp,
      pure, Except.pure]
  · intro close n s e rest hp
    simp [read_activity_lap, lap_attrs, read_activity_lap_loop, elem_loop,
      activity_lap_dispatch, and_then, read_leaf, read_text_event, pF64, hp,
      pure, Except.pure]
  · intro close n s e rest hp
    simp [read_position, elem_loop, position_dispatch, and_then, read_leaf,
      read_text_event, pF64, hp]
  · intro n
    simp [read_activity_lap, lap_attrs, read_activity_lap_loop, elem_loop,
      pure, Except.pure]
  · intro n
    simp [read_position, elem_loop]

/-- C1 witness: concrete instances — `abc` is rejected by the integer and
float parsers, so a `<Calories>abc</Calories>` child (resp.
`<LatitudeDegrees>`, `<TotalTimeSeconds>`) aborts the lap/position read with
the kind-specific error, while a childless `<Lap/>`/`<Position/>` body yields
the default-valued entity. -/
theorem c1_mandatory_scalar_fields_witness :
    read_activity_lap "Lap" [] 3 [.startTag "Calories" [], .text "abc", .endTag "Lap"] =
      some (.error (.parseIntError .invalidDigit)) ∧
    read_activity_lap "Lap" [] 3
        [.startTag "TotalTimeSeconds" [], .text "abc", .endTag "Lap"] =
      some (.error (.parseFloatError .invalid)) ∧
    read_position "Position" 3
        [.startTag "LatitudeDegrees" [], .text "abc", .endTag "Position"] =
      some (.error (.parseFloatError .invalid)) ∧
    read_activity_lap "Lap" [] 3 [.endTag "Lap"] = some (.ok (ActivityLap.default, [])) ∧
    read_position "Position" 3 [.endTag "Position"] = some (.ok (Position.default, [])) :=
  ⟨c1_mandatory_scalar_fields.1 "Lap" 2 "abc" .invalidDigit [.endTag "Lap"] rfl,
   c1_mandatory_scalar_fields.2.1 "Lap" 2 "abc" .invalid [.endTag "Lap"] rfl,
   c1_mandatory_scalar_fields.2.2.1 "Position" 2 "abc" .invalid [.endTag "Position"] rfl,
   c1_mandatory_scalar_fields.2.2.2.1 2,
   c1_mandatory_scalar_fields.2.2.2.2.1 2⟩

/-- C2: an `Author` or `Creator` start element with no `xsi:type` attribute
makes the enclosing reader loop — and hence the whole read — fail with
`TypeNotDefined`, before any of the element's content is examined (the
result does not depend on the following events). -/
theorem c2_missing_type_discriminant :
    (∀ (n : Nat) (db : TrainingCenterDatabase) (attrs : List (String × String))
      (rest : List Tok), (∀ kv ∈ attrs, kv.1 ≠ "xsi:type") →
      read_training_center_loop (n + 1) db (.startTag "Author" attrs :: rest) =
        some (.error .typeNotDefined)) ∧
    (∀ (close : String) (n : Nat) (act : Activity) (attrs : List (String × String))
      (rest : List Tok), (∀ kv ∈ attrs, kv.1 ≠ "xsi:type") →
      read_activity_loop close (n + 1) act (.startTag "Creator" attrs :: rest) =
        some (.error .typeNotDefined)) := by
  constructor
  · intro n db attrs rest hattrs
    have hfind : attrs.find? (fun a => a.1 = "xsi:type") = none := by
      rw [List.find?_eq_none]
      intro x hx
      simpa using hattrs x hx
    simp [read_training_center_loop, elem_loop, training_center_dispatch,
      read_type, hfind, and_then]
  · intro close n act attrs rest hattrs
    have hfind : attrs.find? (fun a => a.1 = "xsi:type") = none := by
      rw [List.find?_eq_none]
      intro x hx
      simpa using hattrs x hx
    simp [read_activity_loop, elem_loop, activity_dispatch, read_type, hfind, and_then]

/-- C2 witness: an attribute-less `<Author>` (and `<Creator>`) aborts the
read with `TypeNotDefined` regardless of what follows. -/
theorem c2_missing_type_discriminant_witness :
    read_training_center_loop 4 TrainingCenterDatabase.init
        [.startTag "Author" [("foo", "bar")], .endTag "TrainingCenterDatabase"] =
      some (.error .typeNotDefined) ∧
    read_activity_loop "Activity" 4 Activity.default
        [.startTag "Creator" [], .endTag "Activity"] =
      some (.error .typeNotDefined) :=
  ⟨c2_missing_type_discriminant.1 3 TrainingCenterDatabase.init [("foo", "bar")]
      [.endTag "TrainingCenterDatabase"] (by decide),
   c2_missing_type_discriminant.2 "Activity" 3 Activity.default []
      [.endTag "Activity"] (by simp)⟩

/-- C3: an `Author`/`Creator` element whose `xsi:type` value is neither
`Application_t` nor `Device_t` does not fail: the loop simply continues on
the following events with its state unchanged, so the corresponding field
stays absent unless some other element sets it; a minimal whole-document run
returns `author = none`. -/
theorem c3_unknown_type_discriminant :
    (∀ (n : Nat) (db : TrainingCenterDatabase) (attrs : List (String × String))
      (v : String) (rest : List Tok), read_type attrs = .ok v →
      v ≠ "Application_t" → v ≠ "Device_t" →
      read_training_center_loop (n + 1) db (.startTag "Author" attrs :: rest) =
        read_training_center_loop n db rest) ∧
    (∀ (close : String) (n : Nat) (act : Activity) (attrs : List (String × String))
      (v : String) (rest : List Tok), read_type attrs = .ok v →
      v ≠ "Application_t" → v ≠ "Device_t" →
      read_activity_loop close (n + 1) act (.startTag "Creator" attrs :: rest) =
        read_activity_loop close n act rest) ∧
    (read 3 [.startTag "Author" [("xsi:type", "Foo_t")],
        .endTag "TrainingCenterDatabase"] =
      some (.ok (TrainingCenterDatabase.init, [])) ∧
      TrainingCenterDatabase.init.author = none) := by
  refine ⟨?_, ?_, rfl, rfl⟩
  · intro n db attrs v rest hty hv1 hv2
    simp [read_training_center_loop, elem_loop, training_center_dispatch,
      hty, hv1, hv2, and_then]
  · intro close n act attrs v rest hty hv1 hv2
    simp [read_activity_loop, elem_loop, activity_dispatch, hty, hv1, hv2, and_then]

/-- C3 witness: `xsi:type="Foo_t"` on `Author` and `Creator` steps the loops
forward without error and without touching the state. -/
theorem c3_unknown_type_discriminant_witness :
    read_training_center_loop 6 TrainingCenterDatabase.init
        [.startTag "Author" [("xsi:type", "Foo_t")], .endTag "TrainingCenterDatabase"] =
      read_training_center_loop 5 TrainingCenterDatabase.init
        [.endTag "TrainingCenterDatabase"] ∧
    read_activity_loop "Activity" 6 Activity.default
        [.startTag "Creator" [("xsi:type", "Foo_t")], .endTag "Activity"] =
      read_activity_loop "Activity" 5 Activity.default [.endTag "Activity"] :=
  ⟨c3_unknown_type_discriminant.1 5 TrainingCenterDatabase.init
      [("xsi:type", "Foo_t")] "Foo_t" [.endTag "TrainingCenterDatabase"] rfl
      (by decide) (by decide),
   c3_unknown_type_discriminant.2.1 "Activity" 5 Activity.default
      [("xsi:type", "Foo_t")] "Foo_t" [.endTag "Activity"] rfl
      (by decide) (by decide)⟩

/-- C4 (code bug): `read` does NOT terminate on every finite input.  Once the
tokenizer reports end of input, `read_event` keeps returning `Event::Eof`,
which every reader loop matches with its catch-all `_ => ()` arm — no break,
no error — so the loop spins forever.  Formally: on an empty stream (or a
document whose `</TrainingCenterDatabase>` end tag is missing) no amount of
fuel makes `read` return. -/
theorem c4_read_diverges_on_truncated_input :
    (∀ n : Nat, read n [] = none) ∧
    (∀ n : Nat, read n [.startTag "TrainingCenterDatabase" []] = none) := by
  constructor
  · intro n
    exact elem_loop_nil "TrainingCenterDatabase" training_center_dispatch n
      TrainingCenterDatabase.init
  · intro n
    cases n with
    | zero => rfl
    | succ n =>
      show elem_loop "TrainingCenterDatabase" training_center_dispatch (n + 1)
        TrainingCenterDatabase.init [.startTag "TrainingCenterDatabase" []] = none
      rw [elem_loop]
      simp [training_center_dispatch, and_then,
        elem_loop_nil "TrainingCenterDatabase" training_center_dispatch n]

/-- C6 counterexample: a tokenizer error returned exactly where a scalar
leaf's text event is expected is NOT surfaced.  The leaf macros read the
event with `if let Ok(Event::Text(t)) = reader.read_event(..)`, so an `Err`
outcome merely fails the pattern and is dropped; after that the tokenizer is
in its terminal state and reports only `Eof`, which the enclosing loop's
catch-all arm swallows forever.  Here the tokenizer fails right after
`<Calories>` (lap reader) and right after `<Sport>` inside a full document:
in both cases the read call never returns at all — in particular it does not
return the `XmlReadError` the claim requires. -/
theorem c6_leaf_error_swallowed_counterexample :
    never_returns (fun fuel =>
      read_activity_lap "Lap" [] fuel [.startTag "Calories" [], .err "boom"]) ∧
    never_returns (fun fuel =>
      read fuel [.startTag "Activities" [], .startTag "Activity" [],
        .startTag "Sport" [], .err "boom"]) := by
  constructor
  · intro fuel
    match fuel with
    | 0 => rfl
    | n + 1 =>
      simp [read_activity_lap, lap_attrs, read_activity_lap_loop, elem_loop,
        activity_lap_dispatch, and_then, read_leaf, read_text_event, pure,
        Except.pure, elem_loop_nil]
  · intro fuel
    match fuel with
    | 0 => rfl
    | 1 => rfl
    | 2 => rfl
    | k + 3 =>
      show read_training_center_loop (k + 3) TrainingCenterDatabase.init _ = none
      simp [read_training_center_loop, elem_loop, training_center_dispatch,
        read_activity_list, read_activity, read_activity_loop,
        activity_list_dispatch, activity_dispatch,
        and_then, read_leaf, read_text_event, elem_loop_nil]

/-- C6 amended: a tokenizer error is fatal and surfaced immediately when any
reader LOOP encounters it (every loop's `Err` arm returns
`XmlReadError` at once, with no recovery and no partial result) — but an
error returned while reading the expected text event of a scalar leaf is
silently discarded by the leaf macros, and since the tokenizer thereafter
reports only end of input, the enclosing loop spins forever: the read call
diverges instead of returning that error (final conjunct; see also the
counterexample). -/
theorem c6_loop_errors_fatal :
    (∀ (e : String) (rest : List Tok) (n : Nat) (db : TrainingCenterDatabase),
      read_training_center_loop (n + 1) db (.err e :: rest) =
        some (.error (.xmlReadError e))) ∧
    (∀ (e : String) (rest : List Tok) (n : Nat) (close : String) (act : Activity),
      read_activity_loop close (n + 1) act (.err e :: rest) =
        some (.error (.xmlReadError e))) ∧
    (∀ (e : String) (rest : List Tok) (n : Nat) (close : String) (lap : ActivityLap),
      read_activity_lap_loop close (n + 1) lap (.err e :: rest) =
        some (.error (.xmlReadError e))) ∧
    (∀ (e : String) (rest : List Tok) (n : Nat) (close : String),
      read_activity_list close (n + 1) (.err e :: rest) =
        some (.error (.xmlReadError e))) ∧
    (∀ (e : String) (rest : List Tok) (n : Nat) (close : String),
      read_track close (n + 1) (.err e :: rest) = some (.error (.xmlReadError e))) ∧
    (∀ (e : String) (rest : List Tok) (n : Nat) (close : String),
      read_track_point close (n + 1) (.err e :: rest) =
        some (.error (.xmlReadError e))) ∧
    (∀ (e : String) (rest : List Tok) (n : Nat) (close : String),
      read_position close (n + 1) (.err e :: rest) =
        some (.error (.xmlReadError e))) ∧
    (∀ (e : String) (rest : List Tok) (n : Nat) (close : String),
      read_training close (n + 1) (.err e :: rest) =
        some (.error (.xmlReadError e))) ∧
    (∀ (e : String) (rest : List Tok) (n : Nat) (close : String),
      read_quick_workout close (n + 1) (.err e :: rest) =
        some (.error (.xmlReadError e))) ∧
    (∀ (e : String) (rest : List Tok) (n : Nat) (close : String),
      read_plan close [] (n + 1) (.err e :: rest) =
        some (.error (.xmlReadError e))) ∧
    (∀ (e : String) (rest : List Tok) (n : Nat) (close : String),
      read_device close (n + 1) (.err e :: rest) =
        some (.error (.xmlReadError e))) ∧
    (∀ (e : String) (rest : List Tok) (n : Nat) (close : String),
      read_application close (n + 1) (.err e :: rest) =
        some (.error (.xmlReadError e))) ∧
    (∀ (e : String) (rest : List Tok) (n : Nat),
      read_build (n + 1) (.err e :: rest) = some (.error (.xmlReadError e))) ∧
    (∀ (e : String) (rest : List Tok) (n : Nat),
      read_version (n + 1) (.err e :: rest) = some (.error (.xmlReadError e))) ∧
    (∀ (e : String) (rest : List Tok) (n : Nat) (st : Option Nat),
      opt_read_value_as pU8 (n + 1) st (.err e :: rest) =
        some (.error (.xmlReadError e))) ∧
    (∀ (e : String) (rest : List Tok) (n : Nat) (st : Nat),
      must_read_value_as pU8 (n + 1) st (.err e :: rest) =
        some (.error (.xmlReadError e))) ∧
    (∀ (e : String) (rest : List Tok) (n : Nat),
      read (n + 1) (.err e :: rest) = some (.error (.xmlReadError e))) ∧
    (∀ (close : String) (e : String) (n : Nat) (lap : ActivityLap) (rest : List Tok),
      read_activity_lap_loop close n lap
        (.startTag "Calories" [] :: .err e :: rest) = none) := by
  refine ⟨?_, ?_, ?_, ?_, ?_, ?_, ?_, ?_, ?_, ?_, ?_, ?_, ?_, ?_, ?_, ?_, ?_, ?_⟩
  all_goals try (intros; rfl)
  intro close e n lap rest
  match n with
  | 0 => rfl
  | m + 1 =>
    simp [read_activity_lap_loop, elem_loop, activity_lap_dispatch, and_then,
      read_leaf, read_text_event, elem_loop_nil]

/-- C7: each closed enumeration's `from_str` accepts exactly its known
literal set, mapping each literal to the matching variant, and rejects every
other string (case variants included) with the `UnknownEnumValueError`
variant naming that enum and carrying the offending text. -/
theorem c7_closed_enum_from_str :
    ((Sport.from_str "Running" = .ok .running ∧
      Sport.from_str "Biking" = .ok .biking ∧
      Sport.from_str "Other" = .ok .other) ∧
     ∀ s, s ≠ "Running" → s ≠ "Biking" → s ≠ "Other" →
       Sport.from_str s = .error (.sport s)) ∧
    ((Intensity.from_str "Active" = .ok .active ∧
      Intensity.from_str "Resting" = .ok .resting) ∧
     ∀ s, s ≠ "Active" → s ≠ "Resting" →
       Intensity.from_str s = .error (.intensity s)) ∧
    ((TriggerMethod.from_str "Manual" = .ok .manual ∧
      TriggerMethod.from_str "Distance" = .ok .distance ∧
      TriggerMethod.from_str "Location" = .ok .location ∧
      TriggerMethod.from_str "Time" = .ok .time ∧
      TriggerMethod.from_str "HeartRate" = .ok .heartRate) ∧
     ∀ s, s ≠ "Manual" → s ≠ "Distance" → s ≠ "Location" → s ≠ "Time" →
       s ≠ "HeartRate" → TriggerMethod.from_str s = .error (.triggerMethod s)) ∧
    ((SensorState.from_str "Present" = .ok .present ∧
      SensorState.from_str "Absent" = .ok .absent) ∧
     ∀ s, s ≠ "Present" → s ≠ "Absent" →
       SensorState.from_str s = .error (.sensorState s)) ∧
    ((BuildType.from_str "Internal" = .ok .internal ∧
      BuildType.from_str "Alpha" = .ok .alpha ∧
      BuildType.from_str "Beta" = .ok .beta ∧
      BuildType.from_str "Release" = .ok .release) ∧
     ∀ s, s ≠ "Internal" → s ≠ "Alpha" → s ≠ "Beta" → s ≠ "Release" →
       BuildType.from_str s = .error (.buildType s)) ∧
    ((TrainingType.from_str "Workout" = .ok .workout ∧
      TrainingType.from_str "Course" = .ok .course) ∧
     ∀ s, s ≠ "Workout" → s ≠ "Course" →
       TrainingType.from_str s = .error (.trainingType s)) ∧
    ((CadenceSensorType.from_str "Footpod" = .ok .footpod ∧
      CadenceSensorType.from_str "Bike" = .ok .bike) ∧
     ∀ s, s ≠ "Footpod" → s ≠ "Bike" →
       CadenceSensorType.from_str s = .error (.cadenceSensorType s)) := by
  refine ⟨⟨⟨rfl, rfl, rfl⟩, ?_⟩, ⟨⟨rfl, rfl⟩, ?_⟩, ⟨⟨rfl, rfl, rfl, rfl, rfl⟩, ?_⟩,
    ⟨⟨rfl, rfl⟩, ?_⟩, ⟨⟨rfl, rfl, rfl, rfl⟩, ?_⟩, ⟨⟨rfl, rfl⟩, ?_⟩, ⟨⟨rfl, rfl⟩, ?_⟩⟩
  · intro s h1 h2 h3; simp [Sport.from_str, h1, h2, h3]
  · intro s h1 h2; simp [Intensity.from_str, h1, h2]
  · intro s h1 h2 h3 h4 h5; simp [TriggerMethod.from_str, h1, h2, h3, h4, h5]
  · intro s h1 h2; simp [SensorState.from_str, h1, h2]
  · intro s h1 h2 h3 h4; simp [BuildType.from_str, h1, h2, h3, h4]
  · intro s h1 h2; simp [TrainingType.from_str, h1, h2]
  · intro s h1 h2; simp [CadenceSensorType.from_str, h1, h2]

/-- C7 witness: lower-case and upper-case variants of the literals are
outside each known set and fail carrying the enum's name and the text. -/
theorem c7_closed_enum_from_str_witness :
    Sport.from_str "running" = .error (.sport "running") ∧
    Intensity.from_str "ACTIVE" = .error (.intensity "ACTIVE") ∧
    TriggerMethod.from_str "manual" = .error (.triggerMethod "manual") ∧
    SensorState.from_str "" = .error (.sensorState "") ∧
    BuildType.from_str "internal" = .error (.buildType "internal") ∧
    TrainingType.from_str "workout" = .error (.trainingType "workout") ∧
    CadenceSensorType.from_str "bike" = .error (.cadenceSensorType "bike") :=
  ⟨c7_closed_enum_from_str.1.2 "running" (by decide) (by decide) (by decide),
   c7_closed_enum_from_str.2.1.2 "ACTIVE" (by decide) (by decide),
   c7_closed_enum_from_str.2.2.1.2 "manual" (by decide) (by decide) (by decide)
     (by decide) (by decide),
   c7_closed_enum_from_str.2.2.2.1.2 "" (by decide) (by decide),
   c7_closed_enum_from_str.2.2.2.2.1.2 "internal" (by decide) (by decide)
     (by decide) (by decide),
   c7_closed_enum_from_str.2.2.2.2.2.1.2 "workout" (by decide) (by decide),
   c7_closed_enum_from_str.2.2.2.2.2.2.2 "bike" (by decide) (by decide)⟩

/-- C8: timestamp handling is strict RFC3339.  Wherever a timestamp is read —
the `Id` leaf of an activity, the `Time` leaf of a trackpoint, the
`StartTime` attribute of a lap — a string accepted by the RFC3339 parser is
stored exactly as parsed (in particular the encoded offset is preserved, see
the `+05:30` instance), and a string it rejects aborts the read with the
date-parse error.  Deviations such as a missing timezone or month `13` are
rejected. -/
theorem c8_rfc3339_strict :
    (∀ (close : String) (n : Nat) (act : Activity) (s : String)
      (dt : DateTimeFixedOffset) (rest : List Tok), parseRfc3339 s = .ok dt →
      read_activity_loop close (n + 1) act (.startTag "Id" [] :: .text s :: rest) =
        read_activity_loop close n { act with id := dt } rest) ∧
    (∀ (close : String) (n : Nat) (act : Activity) (s : String) (rest : List Tok),
      parseRfc3339 s = .error () →
      read_activity_loop close (n + 1) act (.startTag "Id" [] :: .text s :: rest) =
        some (.error .parseDateError)) ∧
    (∀ (close : String) (n : Nat) (s : String) (rest : List Tok),
      parseRfc3339 s = .error () →
      read_track_point close (n + 1) (.startTag "Time" [] :: .text s :: rest) =
        some (.error .parseDateError)) ∧
    (∀ (close : String) (v : String) (fuel : Nat) (evs : List Tok)
      (dt : DateTimeFixedOffset), parseRfc3339 v = .ok dt →
      read_activity_lap close [("StartTime", v)] fuel evs =
        read_activity_lap_loop close fuel
          { ActivityLap.default with start_time := dt } evs) ∧
    (∀ (close : String) (v : String) (fuel : Nat) (evs : List Tok),
      parseRfc3339 v = .error () →
      read_activity_lap close [("StartTime", v)] fuel evs =
        some (.error .parseDateError)) ∧
    parseRfc3339 "2021-01-02T03:04:05+05:30" = .ok ⟨2021, 1, 2, 3, 4, 5, 0, 19800⟩ ∧
    parseRfc3339 "2020-12-28T13:36:16.453Z" =
      .ok ⟨2020, 12, 28, 13, 36, 16, 453000000, 0⟩ ∧
    parseRfc3339 "2020-12-28T13:36:16" = .error () ∧
    parseRfc3339 "2020-13-01T00:00:00Z" = .error () := by
  refine ⟨?_, ?_, ?_, ?_, ?_, rfl, rfl, rfl, rfl⟩
  · intro close n act s dt rest hp
    simp [read_activity_loop, elem_loop, activity_dispatch, and_then, read_leaf,
      read_text_event, pDate, hp]
  · intro close n act s rest hp
    simp [read_activity_loop, elem_loop, activity_dispatch, and_then, read_leaf,
      read_text_event, pDate, hp]
  · intro close n s rest hp
    simp [read_track_point, elem_loop, track_point_dispatch, and_then, read_leaf,
      read_text_event, pDate, hp]
  · intro close v fuel evs dt hp
    simp [read_activity_lap, lap_attrs, hp, pure, Except.pure, bind, Except.bind]
  · intro close v fuel evs hp
    simp [read_activity_lap, lap_attrs, hp, pure, Except.pure, bind, Except.bind]

/-- C8 witness: the accepted offset-carrying timestamp steps the activity
reader storing exactly the parsed value, and the month-13 string aborts the
lap read via its `StartTime` attribute. -/
theorem c8_rfc3339_strict_witness :
    read_activity_loop "Activity" 4 Activity.default
        [.startTag "Id" [], .text "2021-01-02T03:04:05+05:30", .endTag "Activity"] =
      read_activity_loop "Activity" 3
        { Activity.default with id := ⟨2021, 1, 2, 3, 4, 5, 0, 19800⟩ }
        [.endTag "Activity"] ∧
    read_activity_loop "Activity" 4 Activity.default
        [.startTag "Id" [], .text "2020-12-28T13:36:16", .endTag "Activity"] =
      some (.error .parseDateError) ∧
    read_track_point "Trackpoint" 4
        [.startTag "Time" [], .text "2020-13-01T00:00:00Z", .endTag "Trackpoint"] =
      some (.error .parseDateError) ∧
    read_activity_lap "Lap" [("StartTime", "2020-13-01T00:00:00Z")] 4 [.endTag "Lap"] =
      some (.error .parseDateError) ∧
    read_activity_lap "Lap" [("StartTime", "2021-01-02T03:04:05+05:30")] 4
        [.endTag "Lap"] =
      read_activity_lap_loop "Lap" 4
        { ActivityLap.default with start_time := ⟨2021, 1, 2, 3, 4, 5, 0, 19800⟩ }
        [.endTag "Lap"] :=
  ⟨c8_rfc3339_strict.1 "Activity" 3 Activity.default "2021-01-02T03:04:05+05:30"
      ⟨2021, 1, 2, 3, 4, 5, 0, 19800⟩ [.endTag "Activity"] rfl,
   c8_rfc3339_strict.2.1 "Activity" 3 Activity.default "2020-12-28T13:36:16"
      [.endTag "Activity"] rfl,
   c8_rfc3339_strict.2.2.1 "Trackpoint" 3 "2020-13-01T00:00:00Z"
      [.endTag "Trackpoint"] rfl,
   c8_rfc3339_strict.2.2.2.2.1 "Lap" "2020-13-01T00:00:00Z" 4 [.endTag "Lap"] rfl,
   c8_rfc3339_strict.2.2.2.1 "Lap" "2021-01-02T03:04:05+05:30" 4 [.endTag "Lap"]
      ⟨2021, 1, 2, 3, 4, 5, 0, 19800⟩ rfl⟩

/-- C9: `read` is deterministic — its outcome is a function of the input
event stream alone.  The embedding is a pure function by construction,
mirroring the source: `read` builds a fresh tokenizer and a fresh tree per
call and touches no state shared between calls, so two invocations on equal
input bytes return structurally equal results (equal trees on success, the
same error on failure). -/
theorem c9_read_deterministic :
    ∀ (fuel : Nat) (evs1 evs2 : List Tok), evs1 = evs2 →
      read fuel evs1 = read fuel evs2 := by
  intro fuel evs1 evs2 h
  exact congrArg (read fuel) h

/-- C9 witness: two runs over the same concrete bytes coincide. -/
theorem c9_read_deterministic_witness :
    read 5 [.endTag "TrainingCenterDatabase"] =
      read 5 [.endTag "TrainingCenterDatabase"] :=
  c9_read_deterministic 5 [.endTag "TrainingCenterDatabase"]
    [.endTag "TrainingCenterDatabase"] rfl

/-- C10: on every successful `read`, the returned database has
`folders = none`, `workout_list = none` and `course_list = none`, and
whenever an activity list is present its `multi_sport_sessions` vector is
empty: the top-level loop only reacts to `Author` and `Activities`, and no
reader ever constructs a `Folders`, `WorkoutList`, `CourseList` or
`MultiSportSession` value. -/
theorem c10_untouched_sections :
    ∀ (fuel : Nat) (evs : List Tok) (db : TrainingCenterDatabase) (rest : List Tok),
      read fuel evs = some (.ok (db, rest)) →
      db.folders = none ∧ db.workout_list = none ∧ db.course_list = none ∧
        ∀ al, db.activity_list = some al → al.multi_sport_sessions = [] := by
  intro fuel evs db rest h
  have inv : TcInv TrainingCenterDatabase.init db :=
    elem_loop_inv "TrainingCenterDatabase" training_center_dispatch TcInv
      tc_inv_refl tc_inv_trans training_center_dispatch_inv fuel
      TrainingCenterDatabase.init evs db rest h
  obtain ⟨hf, hw, hc, hal⟩ := inv
  refine ⟨hf, hw, hc, ?_⟩
  intro al hsome
  rcases hal with h1 | ⟨al', hal', hm⟩
  · rw [hsome] at h1
    exact absurd h1.symm (by simp [TrainingCenterDatabase.init])
  · rw [hsome] at hal'
    cases hal'
    exact hm

/-- C10 witness: a run over a document with one empty `Activities` section
succeeds, and the theorem yields the absent sections and the empty
multi-sport list. -/
theorem c10_untouched_sections_witness :
    ∃ db : TrainingCenterDatabase,
      read 5 [.startTag "Activities" [], .endTag "Activities",
          .endTag "TrainingCenterDatabase"] = some (.ok (db, [])) ∧
      db.folders = none ∧ db.workout_list = none ∧ db.course_list = none ∧
      ∀ al, db.activity_list = some al → al.multi_sport_sessions = [] := by
  refine ⟨{ TrainingCenterDatabase.init with activity_list := some ⟨[], []⟩ },
    rfl, ?_⟩
  exact c10_untouched_sections 5
    [.startTag "Activities" [], .endTag "Activities", .endTag "TrainingCenterDatabase"]
    { TrainingCenterDatabase.init with activity_list := some ⟨[], []⟩ } [] rfl

/-- C5 counterexample: a `Value`-wrapper reader is NOT bounded by its own
element.  Run the `opt_read_value_as!` loop for `AverageHeartRateBpm` on the
stream that follows `<AverageHeartRateBpm>` in

`<Lap><AverageHeartRateBpm></AverageHeartRateBpm><Foo><Value>5</Value></Foo></Lap>`.

The wrapper element's subtree is empty — its matching end tag is the very
first event — yet the loop runs on to the first `End(Value)` anywhere,
consuming the six events of the sibling `<Foo>` subtree and reading the `5`
found there; the surrounding lap read then returns successfully with
`average_heart_rate_bpm = some 5`, a value taken from events that belong to
the enclosing element.  Under the claim the loop would have stopped inside
the wrapper and the field would have stayed `none`. -/
theorem c5_value_loop_escapes_counterexample :
    opt_read_value_as pU8 10 none
        [.endTag "AverageHeartRateBpm", .startTag "Foo" [], .startTag "Value" [],
         .text "5", .endTag "Value", .endTag "Foo", .endTag "Lap"] =
      some (.ok (some 5, [.endTag "Foo", .endTag "Lap"])) ∧
    read_activity_lap "Lap" [] 20
        [.startTag "AverageHeartRateBpm" [], .endTag "AverageHeartRateBpm",
         .startTag "Foo" [], .startTag "Value" [], .text "5", .endTag "Value",
         .endTag "Foo", .endTag "Lap"] =
      some (.ok ({ ActivityLap.default with average_heart_rate_bpm := some 5 }, [])) :=
  ⟨rfl, rfl⟩

/-- C5 amended: every reader loop consumes exactly a prefix of its stream
ending at the FIRST `End` event that bears the loop's own closing name.  For
the per-entity readers that closing name is the element's tag, so on a
well-formed stream they stop at or before their element's matching end tag
and never consume events of the enclosing element.  The `Value`-wrapper
loops, however, are bounded only by the first `End(Value)` event: when the
wrapper element contains no `Value` child that event can lie beyond the
wrapper's own end tag, and the loop then consumes events belonging to the
enclosing element (see the counterexample). -/
theorem c5_readers_stop_at_first_matching_end :
    (∀ (n : Nat) (st : Option Nat) (evs : List Tok) (v : Option Nat) (rest : List Tok),
      opt_read_value_as pU8 n st evs = some (.ok (v, rest)) →
      ∃ pre, evs = pre ++ Tok.endTag "Value" :: rest) ∧
    (∀ (n : Nat) (st : Nat) (evs : List Tok) (v : Nat) (rest : List Tok),
      must_read_value_as pU8 n st evs = some (.ok (v, rest)) →
      ∃ pre, evs = pre ++ Tok.endTag "Value" :: rest) ∧
    (∀ (n : Nat) (evs : List Tok) (v : Version) (rest : List Tok),
      read_version n evs = some (.ok (v, rest)) →
      ∃ pre, evs = pre ++ Tok.endTag "Version" :: rest) ∧
    (∀ (n : Nat) (evs : List Tok) (b : Build) (rest : List Tok),
      read_build n evs = some (.ok (b, rest)) →
      ∃ pre, evs = pre ++ Tok.endTag "Build" :: rest) ∧
    (∀ (close : String) (n : Nat) (evs : List Tok) (a : Application) (rest : List Tok),
      read_application close n evs = some (.ok (a, rest)) →
      ∃ pre, evs = pre ++ Tok.endTag close :: rest) ∧
    (∀ (close : String) (n : Nat) (evs : List Tok) (d : Device) (rest : List Tok),
      read_device close n evs = some (.ok (d, rest)) →
      ∃ pre, evs = pre ++ Tok.endTag close :: rest) ∧
    (∀ (close : String) (n : Nat) (evs : List Tok) (p : Position) (rest : List Tok),
      read_position close n evs = some (.ok (p, rest)) →
      ∃ pre, evs = pre ++ Tok.endTag close :: rest) ∧
    (∀ (close : String) (n : Nat) (evs : List Tok) (tp : TrackPoint) (rest : List Tok),
      read_track_point close n evs = some (.ok (tp, rest)) →
      ∃ pre, evs = pre ++ Tok.endTag close :: rest) ∧
    (∀ (close : String) (n : Nat) (evs : List Tok) (tps : List TrackPoint)
      (rest : List Tok), read_track close n evs = some (.ok (tps, rest)) →
      ∃ pre, evs = pre ++ Tok.endTag close :: rest) ∧
    (∀ (close : String) (n : Nat) (evs : List Tok) (q : QuickWorkout) (rest : List Tok),
      read_quick_workout close n evs = some (.ok (q, rest)) →
      ∃ pre, evs = pre ++ Tok.endTag close :: rest) ∧
    (∀ (close : String) (attrs : List (String × String)) (n : Nat) (evs : List Tok)
      (p : Plan) (rest : List Tok),
      read_plan close attrs n evs = some (.ok (p, rest)) →
      ∃ pre, evs = pre ++ Tok.endTag close :: rest) ∧
    (∀ (close : String) (n : Nat) (evs : List Tok) (t : Training) (rest : List Tok),
      read_training close n evs = some (.ok (t, rest)) →
      ∃ pre, evs = pre ++ Tok.endTag close :: rest) ∧
    (∀ (close : String) (attrs : List (String × String)) (n : Nat) (evs : List Tok)
      (lap : ActivityLap) (rest : List Tok),
      read_activity_lap close attrs n evs = some (.ok (lap, rest)) →
      ∃ pre, evs = pre ++ Tok.endTag close :: rest) ∧
    (∀ (close : String) (n : Nat) (st : Activity) (evs : List Tok) (act : Activity)
      (rest : List Tok), read_activity_loop close n st evs = some (.ok (act, rest)) →
      ∃ pre, evs = pre ++ Tok.endTag close :: rest) ∧
    (∀ (close : String) (n : Nat) (evs : List Tok) (al : ActivityList)
      (rest : List Tok), read_activity_list close n evs = some (.ok (al, rest)) →
      ∃ pre, evs = pre ++ Tok.endTag close :: rest) ∧
    (∀ (n : Nat) (st : TrainingCenterDatabase) (evs : List Tok)
      (db : TrainingCenterDatabase) (rest : List Tok),
      read_training_center_loop n st evs = some (.ok (db, rest)) →
      ∃ pre, evs = pre ++ Tok.endTag "TrainingCenterDatabase" :: rest) :=
  ⟨fun _ _ _ _ _ h => opt_read_value_as_ends pU8 h,
   fun _ _ _ _ _ h => must_read_value_as_ends pU8 h,
   fun _ _ _ _ h => read_version_ends h,
   fun _ _ _ _ h => read_build_ends h,
   fun _ _ _ _ _ h => read_application_ends h,
   fun _ _ _ _ _ h => read_device_ends h,
   fun _ _ _ _ _ h => read_position_ends h,
   fun _ _ _ _ _ h => read_track_point_ends h,
   fun _ _ _ _ _ h => read_track_ends h,
   fun _ _ _ _ _ h => read_quick_workout_ends h,
   fun _ _ _ _ _ _ h => read_plan_ends h,
   fun _ _ _ _ _ h => read_training_ends h,
   fun _ _ _ _ _ _ h => read_activity_lap_ends h,
   fun _ _ _ _ _ _ h => read_activity_ends h,
   fun _ _ _ _ _ h => read_activity_list_ends h,
   fun _ _ _ _ _ h => read_training_center_ends h⟩

/-- C5 witness: concrete instances — the lap reader on `[</Lap>]` stops at
that end tag leaving nothing, and the `Value` loop of the counterexample
stopped at the first `End(Value)`, five events past its wrapper's end tag. -/
theorem c5_readers_stop_at_first_matching_end_witness :
    (∃ pre, ([Tok.endTag "Lap"] : List Tok) = pre ++ Tok.endTag "Lap" :: []) ∧
    (∃ pre, ([Tok.endTag "AverageHeartRateBpm", Tok.startTag "Foo" [],
        Tok.startTag "Value" [], Tok.text "5", Tok.endTag "Value",
        Tok.endTag "Foo", Tok.endTag "Lap"] : List Tok) =
      pre ++ Tok.endTag "Value" :: [Tok.endTag "Foo", Tok.endTag "Lap"]) :=
  ⟨c5_readers_stop_at_first_matching_end.2.2.2.2.2.2.2.2.2.2.2.2.1 "Lap" [] 3
      [Tok.endTag "Lap"] ActivityLap.default [] rfl,
   c5_readers_stop_at_first_matching_end.1 10 none
      [Tok.endTag "AverageHeartRateBpm", Tok.startTag "Foo" [],
        Tok.startTag "Value" [], Tok.text "5", Tok.endTag "Value",
        Tok.endTag "Foo", Tok.endTag "Lap"] (some 5)
      [Tok.endTag "Foo", Tok.endTag "Lap"] rfl⟩
